import Mathlib

/-!
Verification of the College-Result-Analysis extraction pipeline.

This file is a shallow embedding, in Lean 4, of the three ledger parsers of
the repository (`parser.py` — the gazette pattern, `parser_sy.py` — the SY
pattern, `parser_nep.py` — the NEP pattern).  The input of each parser is
modelled as the list of per-page text strings that the PDF library hands to
the Python code (`pdfplumber` itself is outside the model); every further
step — header metadata recovery, subject-map building, block segmentation,
row tokenization and result resolution — is translated function by function
from the Python source.  Python regular-expression searches are embedded as
hand-written scanners over `List Char` that realise the concrete pattern
used at the corresponding call site (leftmost search, greedy/lazy pieces as
the pattern dictates); Python exceptions that the source catches are
modelled with `Option`.
-/

namespace CRA

/-! ## Python string primitives -/

/-- The characters Python's `str.split()` / `str.strip()` treat as whitespace. -/
def pyWs (c : Char) : Bool :=
  c = ' ' || c = '\t' || c = '\n' || c = '\r' || c = '\x0b' || c = '\x0c'

/-- Helper for `pySplit`: accumulates the current token (reversed). -/
def splitWsAux : List Char → List Char → List (List Char)
  | [], acc => if acc.isEmpty then [] else [acc.reverse]
  | c :: rest, acc =>
    if pyWs c then
      if acc.isEmpty then splitWsAux rest [] else acc.reverse :: splitWsAux rest []
    else splitWsAux rest (c :: acc)

/-- Python `str.split()` (split on runs of whitespace, dropping empty parts). -/
def pySplit (s : String) : List String :=
  (splitWsAux s.data []).map String.mk

/-- Is `n` a (contiguous) sublist of `h`?  Models Python `n in h` on strings. -/
def containsSub (n : List Char) : List Char → Bool
  | [] => n.isEmpty
  | c :: rest => n.isPrefixOf (c :: rest) || containsSub n rest

/-- Python `needle in hay` for strings. -/
def pyIn (needle hay : String) : Bool := containsSub needle.data hay.data

/-- Python `str.upper()` (ASCII, which is all the ledgers use). -/
def upperS (s : String) : String := String.mk (s.data.map Char.toUpper)

/-- Python `str.strip()` on a character list. -/
def stripL (l : List Char) : List Char :=
  ((l.dropWhile pyWs).reverse.dropWhile pyWs).reverse

/-- Python `str.strip()`. -/
def stripS (s : String) : String := String.mk (stripL s.data)

/-- Python `str.rstrip(",")` — drop trailing commas. -/
def rstripComma (s : String) : String :=
  String.mk (s.data.reverse.dropWhile (fun c => c = ',') |>.reverse)

/-- Right-strip every character satisfying `p` (for `re.sub(r"[...]+$", "", s)`). -/
def rstripClass (p : Char → Bool) (l : List Char) : List Char :=
  (l.reverse.dropWhile p).reverse

/-- Left-strip every character satisfying `p` (for `re.sub(r"^[...]+", "", s)`). -/
def lstripClass (p : Char → Bool) (l : List Char) : List Char := l.dropWhile p

/-- Split a character list on a separator character (Python `str.split(sep)`). -/
def splitOnCharAux (sep : Char) : List Char → List Char → List (List Char)
  | [], acc => [acc.reverse]
  | c :: rest, acc =>
    if c = sep then acc.reverse :: splitOnCharAux sep rest []
    else splitOnCharAux sep rest (c :: acc)

/-- Python `str.split("\n")`. -/
def splitNl (s : String) : List String :=
  (splitOnCharAux '\n' s.data []).map String.mk

/-- `sep.join(parts)` on the underlying character lists. -/
def joinSep (sep : List Char) : List String → List Char
  | [] => []
  | [s] => s.data
  | s :: rest => s.data ++ sep ++ joinSep sep rest

/-- Python `"\n".join(parts)`. -/
def joinNlS (parts : List String) : String := String.mk (joinSep ['\n'] parts)

/-- Python `" ".join(parts)`. -/
def joinSpaceS (parts : List String) : String := String.mk (joinSep [' '] parts)

/-- Python list indexing with negative-index wrap-around; `none` is `IndexError`. -/
def pyIdx (l : List String) (i : Int) : Option String :=
  if 0 ≤ i then l.get? i.toNat
  else if 0 ≤ i + l.length then l.get? (i + l.length).toNat
  else none

/-- Python slice `l[1:e]` where `e` may be negative. -/
def pySlice1 (l : List String) (e : Int) : List String :=
  let n : Int := l.length
  let e1 : Int := if e < 0 then e + n else e
  let e2 : Int := if e1 < 0 then 0 else if n < e1 then n else e1
  (l.take e2.toNat).drop 1

/-- Fuel-driven core of `pyReplace` (the fuel is the length of the haystack). -/
def pyReplaceAux (n r : List Char) : Nat → List Char → List Char
  | 0, hay => hay
  | fuel + 1, hay =>
    if n ≠ [] ∧ n.isPrefixOf hay then
      r ++ pyReplaceAux n r fuel (hay.drop n.length)
    else
      match hay with
      | [] => []
      | c :: rest => c :: pyReplaceAux n r fuel rest

/-- Python `hay.replace(n, r)` — replace every occurrence, left to right. -/
def pyReplace (hay n r : List Char) : List Char := pyReplaceAux n r hay.length hay

/-- Python `str.replace` on `String`s. -/
def pyReplaceS (hay n r : String) : String := String.mk (pyReplace hay.data n.data r.data)

/-! ## Generic scanner combinators (embedding of `re` searches) -/

/-- Leftmost-match search: try the matcher at every suffix, earliest first.
Models `re.search` for the hand-written per-pattern matchers below. -/
def searchFrom (t : List Char → Option α) : List Char → Option α
  | [] => t []
  | c :: rest =>
    match t (c :: rest) with
    | some r => some r
    | none => searchFrom t rest

/-- Leftmost search anchored at line starts (models `re.MULTILINE` `^`).
`searchML` tries position 0 and every position following a newline. -/
def searchMLAux (t : List Char → Option α) : List Char → Option α
  | [] => none
  | c :: rest =>
    if c = '\n' then
      match t rest with
      | some r => some r
      | none => searchMLAux t rest
    else searchMLAux t rest

/-- Leftmost `re.MULTILINE`-anchored search (position 0, then after each newline). -/
def searchML (t : List Char → Option α) (l : List Char) : Option α :=
  match t l with
  | some r => some r
  | none => searchMLAux t l

/-- Drop leading whitespace (a greedy `\s*`). -/
def dropWsL (l : List Char) : List Char := l.dropWhile pyWs

/-- A greedy nonempty character-class run (`[c]+`): the run and the remainder. -/
def takeClass1 (p : Char → Bool) (l : List Char) : Option (List Char × List Char) :=
  let r := l.takeWhile p
  if r.isEmpty then none else some (r, l.drop r.length)

/-- Expect a literal (case-sensitive); return the remainder. -/
def litP (lit l : List Char) : Option (List Char) :=
  if lit.isPrefixOf l then some (l.drop lit.length) else none

/-- Case-insensitive prefix test (for `re.IGNORECASE` literals). -/
def ciPrefix : List Char → List Char → Bool
  | [], _ => true
  | _ :: _, [] => false
  | a :: as, b :: bs => (a.toUpper = b.toUpper) && ciPrefix as bs

/-- Expect a literal, ignoring case; return the remainder. -/
def litCI (lit l : List Char) : Option (List Char) :=
  if ciPrefix lit l then some (l.drop lit.length) else none

/-- Python `$` with no `re.MULTILINE`: end of text, or just before a final newline. -/
def pyDollar : List Char → Bool
  | [] => true
  | [c] => c = '\n'
  | _ => false

/-- Lazy capture (`(.*?)` / `([\s\S]*?)`): the shortest (possibly empty) prefix
after which `stop` holds.  With `allowNl = false` the capture may not cross a
newline (a `.` without `re.DOTALL`); reaching one without a stop fails. -/
def captureUntil (stop : List Char → Bool) (allowNl : Bool) :
    List Char → Option (List Char × List Char)
  | [] => if stop [] then some ([], []) else none
  | c :: rest =>
    if stop (c :: rest) then some ([], c :: rest)
    else if !allowNl && c = '\n' then none
    else
      match captureUntil stop allowNl rest with
      | some (cap, rem) => some (c :: cap, rem)
      | none => none

/-- Lazy nonempty capture (`(.+?)`): like `captureUntil` but at least one char. -/
def captureUntil1 (stop : List Char → Bool) (allowNl : Bool) :
    List Char → Option (List Char × List Char)
  | [] => none
  | c :: rest =>
    if !allowNl && c = '\n' then none
    else
      match captureUntil stop allowNl rest with
      | some (cap, rem) => some (c :: cap, rem)
      | none => none

/-- A whitespace run of length ≥ 1 followed by the (case-sensitive) literal:
the lookahead `\s+LIT`.  (Backtracking inside `\s+` cannot help, because a
whitespace character never starts the literals used at these call sites.) -/
def wsThenLit (lit l : List Char) : Bool :=
  let w := l.takeWhile pyWs
  !w.isEmpty && lit.isPrefixOf (l.drop w.length)

/-- Fuel-driven delimiter split (`re.split` with a pattern consuming ≥ 1 char).
`d` returns the remainder after a delimiter match anchored at the position. -/
def splitByDelimAux (d : List Char → Option (List Char)) :
    Nat → List Char → List Char → List (List Char)
  | 0, l, acc => [acc.reverse ++ l]
  | _ + 1, [], acc => [acc.reverse]
  | fuel + 1, c :: rest, acc =>
    match d (c :: rest) with
    | some rem => acc.reverse :: splitByDelimAux d fuel rem []
    | none => splitByDelimAux d fuel rest (c :: acc)

/-- `re.split` on a delimiter pattern that consumes at least one character. -/
def splitByDelim (d : List Char → Option (List Char)) (l : List Char) : List String :=
  (splitByDelimAux d (l.length + 1) l []).map String.mk

/-- Fuel-driven split that also keeps the captured delimiter text
(`re.split` with one capturing group): `d` returns (captured, remainder). -/
def splitCapAux (d : List Char → Option (List Char × List Char)) :
    Nat → List Char → List Char → List String
  | 0, l, acc => [String.mk (acc.reverse ++ l)]
  | _ + 1, [], acc => [String.mk acc.reverse]
  | fuel + 1, c :: rest, acc =>
    match d (c :: rest) with
    | some (cap, rem) => String.mk acc.reverse :: String.mk cap :: splitCapAux d fuel rem []
    | none => splitCapAux d fuel rest (c :: acc)

/-- `re.split` with a capturing group around the whole delimiter. -/
def splitCap (d : List Char → Option (List Char × List Char)) (l : List Char) : List String :=
  splitCapAux d (l.length + 1) l []

/-- Split before every position satisfying `p` (a zero-width `(?=...)` split). -/
def splitBeforeAux (p : List Char → Bool) : List Char → List Char → List (List Char)
  | [], acc => [acc.reverse]
  | c :: rest, acc =>
    if p (c :: rest) then acc.reverse :: splitBeforeAux p rest [c]
    else splitBeforeAux p rest (c :: acc)

/-- `re.split(r"(?=...)", text)` for a zero-width lookahead delimiter. -/
def splitBefore (p : List Char → Bool) (l : List Char) : List String :=
  (splitBeforeAux p l []).map String.mk

/-- Association-list lookup with a default: Python `dict.get(k, d)`. -/
def lookupAssoc (m : List (String × String)) (k d : String) : String :=
  match m.find? (fun p => p.1 == k) with
  | some p => p.2
  | none => d

/-- Python `dict[k] = v` (later writes shadow earlier ones under `lookupAssoc`). -/
def assocPut (m : List (String × String)) (k v : String) : List (String × String) :=
  (k, v) :: m

/-! ## `parser_sy.py` — mark-value cleaning and the subject-row parser -/

/-- A parsed subject row, shared by the SY and NEP row parsers (both build a
dict with exactly these keys). -/
structure SubjectMarks where
  code : String
  name : String
  p_int : String
  int_m : String
  p_ext : String
  ext_m : String
  p_pr : String
  pr_m : String
  total : String
  crd : String
  ern : String
  grd : String
  gp : String
  cp : String
deriving Repr, DecidableEq

/-- `parser_sy.split_prefix_marks`: separate a status symbol from the numeric
mark value.  First strips the noise substrings `FFF`, `$`, `#` and outer
whitespace; then `---`/`-`/`AB`/`AA`/`AAA` are absence sentinels; a space
separates prefix from value; otherwise a leading non-digit is the prefix.
(The `val.split()[1]` index in the source cannot raise: a stripped string
containing a space always splits into at least two parts.) -/
def split_prefix_marks (v0 : String) : String × String :=
  let v := stripS (pyReplaceS (pyReplaceS (pyReplaceS v0 "FFF" "") "$" "") "#" "")
  if v = "---" || v = "-" || v = "AB" || v = "AA" || v = "AAA" then ("-", "-")
  else if pyIn " " v then
    match pySplit v with
    | a :: b :: _ => (a, b)
    | _ => ("", v)
  else
    match v.data with
    | [] => ("", v)
    | c :: rest => if c.isDigit then ("", v) else (String.mk [c], String.mk rest)

/-- The fixed grade vocabulary of `parser_sy.parse_marks_row`. -/
def valid_grades : List String :=
  ["O", "A+", "A", "B+", "B", "C", "D", "F", "P", "AB", "FAIL"]

/-- The right-to-left grade scan of `parse_marks_row`: for `i = 1, …, 6`,
stop as soon as `i ≥ len(parts)` (the `break`), otherwise test `parts[-i]`
against the grade vocabulary; return the absolute index and the grade. -/
def gradeScanAux (parts : List String) : Nat → Nat → Option (Nat × String)
  | _, 0 => none
  | i, fuel + 1 =>
    if parts.length ≤ i then none
    else
      match parts.get? (parts.length - i) with
      | none => none
      | some g =>
        if valid_grades.contains g then some (parts.length - i, g)
        else gradeScanAux parts (i + 1) fuel

/-- The grade anchor: scan `parts[-1] … parts[-6]` for a grade token. -/
def gradeScan (parts : List String) : Option (Nat × String) :=
  gradeScanAux parts 1 6

/-- The prefix-symbol merge loop of `parse_marks_row` (`parser_sy.py`):
`---`/`AAA`/`AA` pass through; a prefix symbol `P * ~ # $ @` followed by
another token merges with it into one space-joined field. -/
def syMergeMarks : List String → List String
  | [] => []
  | t :: rest =>
    if t = "---" || t = "AAA" || t = "AA" then t :: syMergeMarks rest
    else if t = "P" || t = "*" || t = "~" || t = "#" || t = "$" || t = "@" then
      match rest with
      | u :: rest2 => (t ++ " " ++ u) :: syMergeMarks rest2
      | [] => t :: syMergeMarks []
    else t :: syMergeMarks rest

/-- `while len(cleaned_columns) < 3: cleaned_columns.append("---")`. -/
def pad3 (l : List String) : List String := l ++ List.replicate (3 - l.length) "---"

/-- The token-level body of `parser_sy.parse_marks_row`, after the line has
been split on whitespace.  Mirrors the source exactly: length guard, grade
anchoring, positional extraction around the grade pivot (with Python's
negative-index wrap-around), total/marks-region split, the prefix merge and
the three `split_prefix_marks` calls.  `none` models the skipped row. -/
def syParseRowTokens (parts : List String) (subject_map : List (String × String)) :
    Option SubjectMarks :=
  if parts.length < 6 then none
  else
    match gradeScan parts with
    | none => none
    | some (gi, gv) =>
      match pyIdx parts ((gi : Int) - 1), pyIdx parts ((gi : Int) - 2),
            pyIdx parts ((gi : Int) - 3), pyIdx parts ((gi : Int) - 4) with
      | some ern, some crd, some p1, some p2 =>
        let te : String × Int :=
          if p1 = "FFF" || p1 = "FAIL" || p1 = "AB" || p1 = "AA" || p1 = "$" || p1 = "#" then
            (p2, (gi : Int) - 4)
          else if pyIn "FFF" p1 then (pyReplaceS p1 "FFF" "", (gi : Int) - 3)
          else (p1, (gi : Int) - 3)
        let gp := match parts.get? (gi + 1) with | some v => v | none => "0"
        let cp := match parts.get? (gi + 2) with | some v => v | none => "0"
        let code := stripS (pyReplaceS (parts.headD "") ":" "")
        let name := lookupAssoc subject_map code "Subject Name Not Found"
        let cleaned := pad3 (syMergeMarks (pySlice1 parts te.2))
        let im := split_prefix_marks (cleaned.getD 0 "---")
        let em := split_prefix_marks (cleaned.getD 1 "---")
        let pm := split_prefix_marks (cleaned.getD 2 "---")
        some { code := code, name := name,
               p_int := im.1, int_m := im.2,
               p_ext := em.1, ext_m := em.2,
               p_pr := pm.1, pr_m := pm.2,
               total := te.1, crd := crd, ern := ern,
               grd := gv, gp := gp, cp := cp }
      | _, _, _, _ => none

/-- `parser_sy.parse_marks_row`: reject header/profile lines, tokenize on
whitespace, then run the token-level body. -/
def parse_marks_row (line : String) (subject_map : List (String × String)) :
    Option SubjectMarks :=
  if pyIn "CODE" (upperS line) || pyIn "NAME:" (upperS line) || pyIn "PRN:" (upperS line) then
    none
  else syParseRowTokens (pySplit line) subject_map

/-! ## `parser_nep.py` — the NEP block parser -/

/-- An optional `:?` after a literal: consume the colon when present. -/
def optColon (l : List Char) : List Char :=
  match l with
  | ':' :: rest => rest
  | _ => l

/-- Matcher for `PRN:?\s*(\d+)` at a position. -/
def tryNepPrn (l : List Char) : Option String := do
  let r1 ← litP "PRN".data l
  let r2 := dropWsL (optColon r1)
  let (d, _) ← takeClass1 Char.isDigit r2
  pure (String.mk d)

/-- `re.search(r"PRN:?\s*(\d+)", block)`. -/
def nepPrnScan (l : List Char) : Option String := searchFrom tryNepPrn l

/-- Matcher for `SEAT NO\.:?\s*(\d+)` at a position. -/
def tryNepSeat (l : List Char) : Option String := do
  let r1 ← litP "SEAT NO.".data l
  let r2 := dropWsL (optColon r1)
  let (d, _) ← takeClass1 Char.isDigit r2
  pure (String.mk d)

/-- `re.search(r"SEAT NO\.:?\s*(\d+)", block)`. -/
def nepSeatScan (l : List Char) : Option String := searchFrom tryNepSeat l

/-- The lookahead `(?=Mother|-|PRN|$)` ending the NEP name capture. -/
def nepNameStop (rem : List Char) : Bool :=
  "Mother".data.isPrefixOf rem || "-".data.isPrefixOf rem ||
    "PRN".data.isPrefixOf rem || pyDollar rem

/-- Matcher for `NAME:?\s*(.*?)(?=Mother|-|PRN|$)` (with `re.DOTALL`). -/
def tryNepName (l : List Char) : Option String := do
  let r1 ← litP "NAME".data l
  let r2 := dropWsL (optColon r1)
  let (cap, _) ← captureUntil nepNameStop true r2
  pure (String.mk cap)

/-- `re.search` for the NEP student-name pattern. -/
def nepNameScan (l : List Char) : Option String := searchFrom tryNepName l

/-- A Python `\w` character. -/
def wordChar (c : Char) : Bool := c.isAlphanum || c = '_'

/-- Matcher for `Mother\s*-?\s*(\w+)` at a position. -/
def tryNepMother (l : List Char) : Option String := do
  let r1 ← litP "Mother".data l
  let r2 := dropWsL r1
  let r3 := match r2 with
    | '-' :: rest => dropWsL rest
    | _ => r2
  let (w, _) ← takeClass1 wordChar r3
  pure (String.mk w)

/-- `re.search(r"Mother\s*-?\s*(\w+)", block)`. -/
def nepMotherScan (l : List Char) : Option String := searchFrom tryNepMother l

/-- The delimiter `Semester\s*:\s*` of the NEP semester split (`re.IGNORECASE`). -/
def nepSemDelim (l : List Char) : Option (List Char) := do
  let r1 ← litCI "Semester".data l
  let r2 := dropWsL r1
  let r3 ← litP ":".data r2
  pure (dropWsL r3)

/-- A `[\d\.]` character. -/
def digitDot (c : Char) : Bool := c.isDigit || c = '.'

/-- Matcher for `LABEL\s*:\s*([\d\.]+)` after a case-sensitive literal label. -/
def tryLabelledNumber (label : List Char) (l : List Char) : Option String := do
  let r1 ← litP label l
  let r2 := dropWsL r1
  let r3 ← litP ":".data r2
  let (d, _) ← takeClass1 digitDot (dropWsL r3)
  pure (String.mk d)

/-- `re.search(r"First Semester SGPA\s*:\s*([\d\.]+)", block)`. -/
def nepSgpa1Scan (l : List Char) : Option String :=
  searchFrom (tryLabelledNumber "First Semester SGPA".data) l

/-- `re.search(r"Second Semester SGPA\s*:\s*([\d\.]+)", block)`. -/
def nepSgpa2Scan (l : List Char) : Option String :=
  searchFrom (tryLabelledNumber "Second Semester SGPA".data) l

/-- Matcher for the whole-match summary capture
`(LABEL\s*:\s*.*?)(?=\n|STOPLIT|$)` (with `re.DOTALL` on the lazy part). -/
def trySummaryCap (label stopLit : List Char) (l : List Char) : Option String := do
  let r1 ← litP label l
  let w1 := r1.takeWhile pyWs
  let r2 ← litP ":".data (r1.drop w1.length)
  let w2 := r2.takeWhile pyWs
  let stop := fun rem =>
    (match rem with | '\n' :: _ => true | _ => false) ||
      stopLit.isPrefixOf rem || pyDollar rem
  let (cap, _) ← captureUntil stop true (r2.drop w2.length)
  pure (String.mk (label ++ w1 ++ ':' :: w2 ++ cap))

/-- `re.search(r"(First Semester SGPA\s*:\s*.*?)(?=\n|Second Semester|$)", …)`. -/
def nepSum1Scan (l : List Char) : Option String :=
  searchFrom (trySummaryCap "First Semester SGPA".data "Second Semester".data) l

/-- `re.search(r"(Second Semester SGPA\s*:\s*.*?)(?=\n|First Year|$)", …)`. -/
def nepSum2Scan (l : List Char) : Option String :=
  searchFrom (trySummaryCap "Second Semester SGPA".data "First Year".data) l

/-- Matcher for
`(First Year (?:Result|Total Credits Earned)\s*:\s*.*?)(?=\n|$)`. -/
def tryNepFy (l : List Char) : Option String := do
  let r1 ← litP "First Year ".data l
  let (kw, r2) ←
    match litP "Result".data r1 with
    | some r => some ("Result".data, r)
    | none =>
      match litP "Total Credits Earned".data r1 with
      | some r => some ("Total Credits Earned".data, r)
      | none => none
  let w1 := r2.takeWhile pyWs
  let r3 ← litP ":".data (r2.drop w1.length)
  let w2 := r3.takeWhile pyWs
  let stop := fun rem =>
    (match rem with | '\n' :: _ => true | _ => false) || pyDollar rem
  let (cap, _) ← captureUntil stop false (r3.drop w2.length)
  pure (String.mk ("First Year ".data ++ kw ++ w1 ++ ':' :: w2 ++ cap))

/-- `re.search` for the NEP first-year result/credits summary line. -/
def nepFyScan (l : List Char) : Option String := searchFrom tryNepFy l

/-- `re.search(r"Total Credit Points:\s*([\d\.]+)", block)`. -/
def nepTcpScan (l : List Char) : Option String := do
  searchFrom (fun s => do
    let r1 ← litP "Total Credit Points:".data s
    let (d, _) ← takeClass1 digitDot (dropWsL r1)
    pure (String.mk d)) l

/-- The prefix-marker merge loop of `parse_nep_block`: `P`, `*` or `AA`
followed by another token merge into one space-joined field. -/
def nepMergeMarks : List String → List String
  | [] => []
  | t :: rest =>
    if t = "P" || t = "*" || t = "AA" then
      match rest with
      | u :: rest2 => (t ++ " " ++ u) :: nepMergeMarks rest2
      | [] => t :: nepMergeMarks []
    else t :: nepMergeMarks rest

/-- `m = field.split(); (m[0] if len(m) > 1 else "-", m[-1])` — the
prefix/value decomposition of one processed NEP mark field.  (Fields are
whitespace-split tokens or two of them space-joined, so the split is never
empty on the inputs that reach it.) -/
def nepMarkSplit (s : String) : String × String :=
  let ms := pySplit s
  (if 1 < ms.length then ms.headD "-" else "-", ms.getLastD "-")

/-- One NEP subject line (inside a semester section): at least 8
whitespace tokens, a cleaned subject code of length ≥ 3, fixed positional
fields from the right (`total crd ern grd gp cp` = `parts[-6..-1]`), and a
marks region `parts[1:-6]` processed by the prefix merge. -/
def nepParseLine (subject_map : List (String × String)) (line : String) :
    Option SubjectMarks :=
  let parts := pySplit line
  if parts.length < 8 then none
  else
    let code_raw := pyReplaceS (stripS (parts.headD "")) ":" ""
    let code_clean := String.mk (code_raw.data.filter fun c => c.isUpper || c.isDigit || c = '-')
    if code_clean.length < 3 then none
    else
      let n := parts.length
      let processed := nepMergeMarks (pySlice1 parts (-6))
      let m1 := if 1 ≤ processed.length then nepMarkSplit (processed.getD 0 "") else ("-", "-")
      let m2 := if 2 ≤ processed.length then nepMarkSplit (processed.getD 1 "") else ("-", "-")
      let m3 := if 3 ≤ processed.length then nepMarkSplit (processed.getD 2 "") else ("-", "-")
      some { code := code_clean,
             name := lookupAssoc subject_map code_clean "---",
             p_int := m1.1, int_m := if 1 ≤ processed.length then m1.2 else "-",
             p_ext := m2.1, ext_m := if 2 ≤ processed.length then m2.2 else "-",
             p_pr := m3.1, pr_m := if 3 ≤ processed.length then m3.2 else "-",
             total := parts.getD (n - 6) "", crd := parts.getD (n - 5) "",
             ern := parts.getD (n - 4) "", grd := parts.getD (n - 3) "",
             gp := parts.getD (n - 2) "", cp := parts.getD (n - 1) "" }

/-- The final result determination of `parse_nep_block` (its last phase):
`PASS` on `44/44` credits or no `F`/`FFF`/`FAIL` grade among a nonempty
grade list; otherwise ATKT when the summary says so; otherwise `FAIL`. -/
def nepResultOf (fy_text : String) (all_grades : List String) : String :=
  let fail_exists := all_grades.any fun g => g = "F" || g = "FFF" || g = "FAIL"
  if pyIn "44/44" fy_text || (!fail_exists && decide (0 < all_grades.length)) then "PASS"
  else if pyIn "A.T.K.T" fy_text then "FAIL A.T.K.T."
  else "FAIL"

/-- The dashboard-SGPA selection of `parse_nep_block`: the second semester's
explicit SGPA figure when present, else the first semester's, else `"-"`.
(No PASS/FAIL gate — the value is taken from the block unconditionally.) -/
def nepDashboard (block : String) : String :=
  match nepSgpa2Scan block.data with
  | some v => v
  | none =>
    match nepSgpa1Scan block.data with
    | some v => v
    | none => "-"

/-- A parsed NEP student record (`course_name` is filled in by `nepMain`). -/
structure StudentNEP where
  prn : String
  seat_no : String
  full_name : String
  mother_name : String
  gender : String
  sem1_subjects : List SubjectMarks
  sem2_subjects : List SubjectMarks
  sem1_summary : String
  sem2_summary : String
  dashboard_sgpa : String
  fy_total_msg : String
  result : String
  cgpa : String
  final_grade : String
  total_marks : String
  course_name : String
deriving Repr, DecidableEq

/-- `parser_nep.parse_nep_block`: profile extraction (PRN and seat number
mandatory), semester-wise subject rows, summary/SGPA extraction, and the
final result.  `none` models the discarded block. -/
def parse_nep_block (block : String) (subject_map : List (String × String)) :
    Option StudentNEP :=
  match nepPrnScan block.data, nepSeatScan block.data with
  | some prn, some seat =>
    let full_name :=
      match nepNameScan block.data with
      | some cap => (splitNl (stripS cap)).headD ""
      | none => "Unknown"
    let mother := (nepMotherScan block.data).getD "-"
    let gender := if pyIn "SEX: M" block || pyIn " M " block then "Male" else "Unknown"
    let semParts := (splitByDelim nepSemDelim block.data).drop 1
    let perPart := semParts.map fun part => (splitNl part).filterMap (nepParseLine subject_map)
    let sem1 := perPart.headD []
    let sem2 := (perPart.drop 1).flatten
    let all_grades := (sem1 ++ sem2).map (·.grd)
    let fy_text := match nepFyScan block.data with
      | some t => upperS t
      | none => ""
    some { prn := prn, seat_no := seat, full_name := full_name, mother_name := mother,
           gender := gender,
           sem1_subjects := sem1, sem2_subjects := sem2,
           sem1_summary := match nepSum1Scan block.data with
             | some t => stripS (pyReplaceS t "\n" " ")
             | none => "",
           sem2_summary := match nepSum2Scan block.data with
             | some t => stripS (pyReplaceS t "\n" " ")
             | none => "",
           dashboard_sgpa := nepDashboard block,
           fy_total_msg := fy_text,
           result := nepResultOf fy_text all_grades,
           cgpa := "-", final_grade := "-",
           total_marks := (nepTcpScan block.data).getD "-",
           course_name := "" }
  | _, _ => none

/-! ## Shared metadata model -/

/-- Document-level metadata.  A field holding Python `None` is `none`;
a field holding the string `s` is `some s` (`course_name`/`college_name`
are always strings in the source, so they stay `String`). -/
structure Metadata where
  pun_code : Option String
  course_name : String
  college_name : String
deriving Repr, DecidableEq

/-- The backup metadata gathered by `parser_sy.extract_subject_mapping`
(all three fields start as Python `None`). -/
structure BackupMeta where
  pun_code : Option String
  course_name : Option String
  college_name : Option String
deriving Repr, DecidableEq

/-- The result envelope every `main` returns.  A missing key of the Python
dict is modelled as `none` / `[]`. -/
structure Envelope (α : Type) where
  success : Bool
  error : Option String
  college_info : Option Metadata
  student_data : List α
deriving Repr, DecidableEq

/-! ## `parser_sy.py` — header metadata and subject mapping -/

/-- Case-insensitive `\s+LIT` lookahead (for patterns under `re.IGNORECASE`). -/
def wsThenLitCI (lit l : List Char) : Bool :=
  let w := l.takeWhile pyWs
  !w.isEmpty && ciPrefix lit (l.drop w.length)

/-- Collapse every whitespace run to a single space
(`re.sub(r"\s+", " ", s)`); the flag records whether the previous
character was whitespace. -/
def collapseWs : Bool → List Char → List Char
  | _, [] => []
  | inWs, c :: rest =>
    if pyWs c then
      if inWs then collapseWs true rest else ' ' :: collapseWs true rest
    else c :: collapseWs false rest

/-- `re.sub(r"\s+", " ", s).strip()`. -/
def collapseWsS (s : String) : String := stripS (String.mk (collapseWs false s.data))

/-- Matcher for `Puncode\s*:\s*([A-Z]{4}\d{6,10})` (`re.IGNORECASE`): four
letters then six to ten digits (greedy, capped at ten). -/
def trySyPun (l : List Char) : Option String := do
  let r1 ← litCI "Puncode".data l
  let r2 ← litP ":".data (dropWsL r1)
  match dropWsL r2 with
  | a :: b :: c :: d :: r4 =>
    if a.isAlpha && b.isAlpha && c.isAlpha && d.isAlpha then
      let run := r4.takeWhile Char.isDigit
      if 6 ≤ run.length then some (String.mk ([a, b, c, d] ++ run.take 10)) else none
    else none
  | _ => none

/-- `re.search` for the SY/NEP `Puncode` header pattern. -/
def syPunScan (l : List Char) : Option String := searchFrom trySyPun l

/-- The stop lookahead of the SY course-name capture:
`(?=\s*\((?:REV|20\d{2})|\s*\(?\d{4}\s*Pattern|College Ledger|\n\n|$)`. -/
def syCourseStop (rem : List Char) : Bool :=
  let stopParen :=
    match dropWsL rem with
    | '(' :: r2 =>
      ciPrefix "REV".data r2 ||
        (match r2 with
         | '2' :: '0' :: d1 :: d2 :: _ => d1.isDigit && d2.isDigit
         | _ => false)
    | _ => false
  let fourDigitsPattern := fun (r : List Char) =>
    match r with
    | d1 :: d2 :: d3 :: d4 :: r2 =>
      d1.isDigit && d2.isDigit && d3.isDigit && d4.isDigit &&
        ciPrefix "Pattern".data (dropWsL r2)
    | _ => false
  let stopPattern :=
    let r := dropWsL rem
    match r with
    | '(' :: t => fourDigitsPattern t || fourDigitsPattern r
    | _ => fourDigitsPattern r
  stopParen || stopPattern || ciPrefix "College Ledger".data rem ||
    "\n\n".data.isPrefixOf rem || pyDollar rem

/-- Matcher for the SY course pattern
`((?:BACHELOR|MASTER)\s+OF\s+[\s\S]*?)(?=…)` (`re.IGNORECASE`): the capture
is the degree keyword, the `OF`, and the lazy tail up to the stop. -/
def trySyCourse (l : List Char) : Option String := do
  let (kwLen, r1) ←
    match litCI "BACHELOR".data l with
    | some r => some (8, r)
    | none =>
      match litCI "MASTER".data l with
      | some r => some (6, r)
      | none => none
  let (w1, r2) ← takeClass1 pyWs r1
  let r3 ← litCI "OF".data r2
  let (w2, r4) ← takeClass1 pyWs r3
  let (cap, _) ← captureUntil syCourseStop true r4
  pure (String.mk (l.take kwLen ++ w1 ++ (r2.take 2) ++ w2 ++ cap))

/-- `re.search` for the SY header course-name pattern. -/
def syCourseScan (l : List Char) : Option String := searchFrom trySyCourse l

/-- Matcher for `Puncode\s*:.*?\]\s*(.*?)(?=\n|$)` (`re.IGNORECASE`). -/
def trySyCollege (l : List Char) : Option String := do
  let r1 ← litCI "Puncode".data l
  let r2 ← litP ":".data (dropWsL r1)
  let (_, rem) ← captureUntil (fun r => r.head? = some ']') false r2
  let r3 := dropWsL (rem.drop 1)
  let (cap, _) ←
    captureUntil (fun r => r.head? = some '\n' || pyDollar r) false r3
  pure (String.mk cap)

/-- `re.search` for the SY header college-name pattern. -/
def syCollegeScan (l : List Char) : Option String := searchFrom trySyCollege l

/-- A `[A-Z\s,]` character (the run before the keyword in the SY college
fallback pattern). -/
def upWsComma (c : Char) : Bool := c.isUpper || pyWs c || c = ','

/-- The keyword alternation of the SY college fallback. -/
def collegeKw : List (List Char) :=
  ["COLLEGE".data, "INSTITUTE".data, "ARTS".data, "SCIENCE".data, "COMMERCE".data]

/-- Greedy backtracking split for `[A-Z\s,]+(?:KW…)`: the largest `k ≥ 1`
not exceeding the class run such that a keyword starts right after the
first `k` characters. -/
def maxKwSplit (t : List Char) : Nat → Option Nat
  | 0 => none
  | k + 1 =>
    if collegeKw.any (fun kw => kw.isPrefixOf (t.drop (k + 1))) then some (k + 1)
    else maxKwSplit t k

/-- Matcher for the SY college fallback
`\[\d{4}\]\s*([A-Z][A-Z\s,]+(?:COLLEGE|INSTITUTE|ARTS|SCIENCE|COMMERCE).*?)(?=\n|$)`. -/
def trySyCollegeFb (l : List Char) : Option String := do
  let r1 ← litP "[".data l
  match r1 with
  | d1 :: d2 :: d3 :: d4 :: ']' :: r2 =>
    if d1.isDigit && d2.isDigit && d3.isDigit && d4.isDigit then do
      match dropWsL r2 with
      | c0 :: t =>
        if c0.isUpper then do
          let run := t.takeWhile upWsComma
          let k ← maxKwSplit t run.length
          let afterK := t.drop k
          let kw ← collegeKw.find? (fun kw => kw.isPrefixOf afterK)
          let (cap, _) ←
            captureUntil (fun r => r.head? = some '\n' || pyDollar r) false
              (afterK.drop kw.length)
          pure (String.mk (c0 :: t.take k ++ kw ++ cap))
        else none
      | [] => none
    else none
  | _ => none

/-- `re.search` for the SY college fallback pattern. -/
def syCollegeFbScan (l : List Char) : Option String := searchFrom trySyCollegeFb l

/-- The header text of the SY extractor: the concatenation of (at most)
the first two pages. -/
def syHeaderText (doc : List String) : String := String.mk (joinSep [] (doc.take 2))

/-- `parser_sy.extract_header_metadata` on the concatenation of the first
two pages (empty header text returns the all-Unknown record, as does an
input with no pages — the source catches the `IndexError`). -/
def syExtractHeaderMetadata (doc : List String) : Metadata :=
  let header_text := syHeaderText doc
  if header_text = "" then
    { pun_code := some "Unknown", course_name := "Unknown", college_name := "Unknown" }
  else
    let pun := match syPunScan header_text.data with
      | some v => some (stripS v)
      | none => some "Unknown"
    let course := match syCourseScan header_text.data with
      | some v => collapseWsS v
      | none => "Unknown"
    let college := match syCollegeScan header_text.data with
      | some v => rstripComma (stripS v)
      | none => "Unknown"
    let college2 :=
      if college = "Unknown" || college = "" then
        match syCollegeFbScan header_text.data with
        | some v => rstripComma (stripS v)
        | none => college
      else college
    { pun_code := pun, course_name := course, college_name := college2 }

/-- Matcher for the backup `Puncode\s*:\s*([A-Z]{4}\d+)` (`re.IGNORECASE`). -/
def trySyPunBk (l : List Char) : Option String := do
  let r1 ← litCI "Puncode".data l
  let r2 ← litP ":".data (dropWsL r1)
  match dropWsL r2 with
  | a :: b :: c :: d :: r4 =>
    if a.isAlpha && b.isAlpha && c.isAlpha && d.isAlpha then do
      let (run, _) ← takeClass1 Char.isDigit r4
      pure (String.mk ([a, b, c, d] ++ run))
    else none
  | _ => none

/-- `re.search(r"\]\s*(.*?)(?=\n|$)", line)` — the backup college capture. -/
def syCollBkScan (l : List Char) : Option String :=
  searchFrom (fun s => do
    let r1 ← litP "]".data s
    let (cap, _) ←
      captureUntil (fun r => r.head? = some '\n' || pyDollar r) false (dropWsL r1)
    pure (String.mk cap)) l

/-- The stop lookahead of the backup course pattern:
`(?=\s*\((?:REV|20\d{2})|\s*Pattern|\n|$)`. -/
def syCourseBkStop (rem : List Char) : Bool :=
  let stopParen :=
    match dropWsL rem with
    | '(' :: r2 =>
      ciPrefix "REV".data r2 ||
        (match r2 with
         | '2' :: '0' :: d1 :: d2 :: _ => d1.isDigit && d2.isDigit
         | _ => false)
    | _ => false
  stopParen || ciPrefix "Pattern".data (dropWsL rem) ||
    rem.head? = some '\n' || pyDollar rem

/-- Matcher for the backup course pattern
`((?:BACHELOR|MASTER)\s+OF\s+.*?)(?=…)` (`re.IGNORECASE`, no `DOTALL`). -/
def trySyCourseBk (l : List Char) : Option String := do
  let (kwLen, r1) ←
    match litCI "BACHELOR".data l with
    | some r => some (8, r)
    | none =>
      match litCI "MASTER".data l with
      | some r => some (6, r)
      | none => none
  let (w1, r2) ← takeClass1 pyWs r1
  let r3 ← litCI "OF".data r2
  let (w2, r4) ← takeClass1 pyWs r3
  let (cap, _) ← captureUntil syCourseBkStop false r4
  pure (String.mk (l.take kwLen ++ w1 ++ (r2.take 2) ++ w2 ++ cap))

/-- `re.search` for the SY backup course pattern. -/
def syCourseBkScan (l : List Char) : Option String := searchFrom trySyCourseBk l

/-- A `[A-Z0-9-]` character. -/
def codeChar (c : Char) : Bool := c.isUpper || c.isDigit || c = '-'

/-- `re.match(r"^\s*([A-Z0-9-]{3,10})\s+(.+)$", line.strip())`: a code-like
token of 3–10 class characters (a longer run cannot match, since greedy
backtracking would expose a class character where whitespace is required),
at least one whitespace character, then the nonempty rest of the line. -/
def syMapLine (stripped : List Char) : Option (String × String) := do
  let t := dropWsL stripped
  let (run, r1) ← takeClass1 codeChar t
  if 3 ≤ run.length && run.length ≤ 10 then do
    let (_, r2) ← takeClass1 pyWs r1
    if r2.isEmpty || r2.contains '\n' then none
    else pure (String.mk run, String.mk r2)
  else none

/-- `re.sub(r"[:\-\s!]+$", "", name.strip())` — the subject-name cleanup. -/
def syCleanName (s : String) : String :=
  String.mk (rstripClass (fun c => c = ':' || c = '-' || c = '!' || pyWs c) (stripL s.data))

/-- One page's line loop of `parser_sy.extract_subject_mapping`: backup
metadata sniffing, the `Paper List` capture flag, the `Semester:` skip, the
`PRN:` break, and the code/name extraction while capturing. -/
def syLinesFold (capture : Bool) (st : List (String × String) × BackupMeta) :
    List String → List (String × String) × BackupMeta
  | [] => st
  | line :: rest =>
    let backup := st.2
    let b1 :=
      if pyIn "Puncode" line then
        let bA := match searchFrom trySyPunBk line.data with
          | some v => { backup with pun_code := some (stripS v) }
          | none => backup
        match syCollBkScan line.data with
        | some v => { bA with college_name := some (rstripComma (stripS v)) }
        | none => bA
      else backup
    let b2 :=
      if pyIn "BACHELOR" (upperS line) || pyIn "MASTER" (upperS line) then
        match syCourseBkScan line.data with
        | some v => { b1 with course_name := some (stripS v) }
        | none => b1
      else b1
    if pyIn "Paper List" line then syLinesFold true (st.1, b2) rest
    else if pyIn "Semester:" line then syLinesFold capture (st.1, b2) rest
    else if pyIn "PRN:" line then (st.1, b2)
    else if capture then
      match syMapLine (stripL line.data) with
      | some cn => syLinesFold capture (assocPut st.1 (stripS cn.1) (syCleanName cn.2), b2) rest
      | none => syLinesFold capture (st.1, b2) rest
    else syLinesFold capture (st.1, b2) rest

/-- `parser_sy.extract_subject_mapping`: scan at most the first five pages;
empty pages are skipped; the capture flag resets on every page, while the
mapping and the backup metadata accumulate. -/
def syExtractSubjectMapping (doc : List String) :
    List (String × String) × BackupMeta :=
  (doc.take 5).foldl
    (fun st text => if text = "" then st else syLinesFold false st (splitNl text))
    ([], { pun_code := none, course_name := none, college_name := none })

/-- The backup-restoration loop of `parser_sy.main`: an `Unknown` primary
field is replaced by a backup value that is neither `None` nor `Unknown`. -/
def syMergeBackup (meta : Metadata) (backup : BackupMeta) : Metadata :=
  let pun :=
    if meta.pun_code = some "Unknown" then
      match backup.pun_code with
      | some v => if v = "Unknown" then meta.pun_code else some v
      | none => meta.pun_code
    else meta.pun_code
  let course :=
    if meta.course_name = "Unknown" then
      match backup.course_name with
      | some v => if v = "Unknown" then meta.course_name else v
      | none => meta.course_name
    else meta.course_name
  let college :=
    if meta.college_name = "Unknown" then
      match backup.college_name with
      | some v => if v = "Unknown" then meta.college_name else v
      | none => meta.college_name
    else meta.college_name
  { pun_code := pun, course_name := course, college_name := college }

/-! ## `parser_sy.py` — per-block extraction and `main` -/

/-- Matcher for `PRN:\s*(\d+)` at a position (colon mandatory). -/
def trySyPrnBlock (s : List Char) : Option String := do
  let r1 ← litP "PRN:".data s
  let (d, _) ← takeClass1 Char.isDigit (dropWsL r1)
  pure (String.mk d)

/-- `re.search(r"PRN:\s*(\d+)", block)` (colon mandatory, case-sensitive). -/
def syPrnBlockScan (l : List Char) : Option String :=
  searchFrom trySyPrnBlock l

/-- `re.search(r"SEAT NO\.:\s*(\d+)", block)`. -/
def sySeatScan (l : List Char) : Option String :=
  searchFrom (fun s => do
    let r1 ← litP "SEAT NO.:".data s
    let (d, _) ← takeClass1 Char.isDigit (dropWsL r1)
    pure (String.mk d)) l

/-- `re.search(r"NAME:\s*(.*?)(?=\s+Mother|\s+PRN|$)", block)`. -/
def syNameScan (l : List Char) : Option String :=
  searchFrom (fun s => do
    let r1 ← litP "NAME:".data s
    let (cap, _) ←
      captureUntil
        (fun r => wsThenLit "Mother".data r || wsThenLit "PRN".data r || pyDollar r)
        false (dropWsL r1)
    pure (String.mk cap)) l

/-- `re.search(r"Mother\s*-\s*(\w+)", block)` (the hyphen is mandatory here). -/
def syMotherScan (l : List Char) : Option String :=
  searchFrom (fun s => do
    let r1 ← litP "Mother".data s
    let r2 ← litP "-".data (dropWsL r1)
    let (w, _) ← takeClass1 wordChar (dropWsL r2)
    pure (String.mk w)) l

/-- `re.search(r"Second Year Result\s*:\s*(.*?)(?=\s+Total|\n)", block, re.IGNORECASE)`
(note: no `$` alternative — a result at the very end of a block with nothing
after it does not match). -/
def syResultScan (l : List Char) : Option String :=
  searchFrom (fun s => do
    let r1 ← litCI "Second Year Result".data s
    let r2 ← litP ":".data (dropWsL r1)
    let (cap, _) ←
      captureUntil
        (fun r => wsThenLitCI "Total".data r || r.head? = some '\n')
        false (dropWsL r2)
    pure (String.mk cap)) l

/-- `re.search(r"(Total Credits Earned\s*:\s*[\d\/]+)", block)` — the whole
match is the captured official credits string. -/
def syCredScan (l : List Char) : Option String :=
  searchFrom (fun s => do
    let r1 ← litP "Total Credits Earned".data s
    let w1 := r1.takeWhile pyWs
    let r2 ← litP ":".data (r1.drop w1.length)
    let w2 := r2.takeWhile pyWs
    let (run, _) ← takeClass1 (fun c => c.isDigit || c = '/') (r2.drop w2.length)
    pure (String.mk ("Total Credits Earned".data ++ w1 ++ ':' :: w2 ++ run))) l

/-- `re.search(rf"{label} Semester SGPA\s*:\s*([\d\.]+)", block, re.IGNORECASE)`. -/
def sySgpaLabelScan (label : String) (block : String) : Option String :=
  searchFrom (fun s => do
    let r1 ← litCI (label.data ++ " Semester SGPA".data) s
    let r2 ← litP ":".data (dropWsL r1)
    let (d, _) ← takeClass1 digitDot (dropWsL r2)
    pure (String.mk d)) block.data

/-- `re.search(r"Puncode\s*:.*?\d+\]\s*(.*?)(?=\n|$)", block, re.IGNORECASE)` —
the in-block college recovery used when the header yielded `Unknown`. -/
def syLocalCollScan (l : List Char) : Option String :=
  searchFrom (fun s => do
    let r1 ← litCI "Puncode".data s
    let r2 ← litP ":".data (dropWsL r1)
    let stop := fun r =>
      let run := r.takeWhile Char.isDigit
      !run.isEmpty && (r.drop run.length).head? = some ']'
    let (_, rem) ← captureUntil stop false r2
    let run := rem.takeWhile Char.isDigit
    let r3 := dropWsL ((rem.drop run.length).drop 1)
    let (cap, _) ←
      captureUntil (fun r => r.head? = some '\n' || pyDollar r) false r3
    pure (String.mk cap)) l

/-- The position lookahead `(?=PRN:\s*\d+)` of the SY block split. -/
def syPrnStart (l : List Char) : Bool :=
  match litP "PRN:".data l with
  | some r =>
    match dropWsL r with
    | c :: _ => c.isDigit
    | [] => false
  | none => false

/-- The captured delimiter `(SEMESTER:\s*\d)` of the SY semester split
(case-sensitive): returns the captured delimiter text and the remainder. -/
def sySemDelim (l : List Char) : Option (List Char × List Char) :=
  match litP "SEMESTER:".data l with
  | none => none
  | some r1 =>
    let w := r1.takeWhile pyWs
    match r1.drop w.length with
    | c :: r3 => if c.isDigit then some ("SEMESTER:".data ++ w ++ [c], r3) else none
    | [] => none

/-- `re.match(r"SEMESTER:\s*(\d)", part.strip())`. -/
def syHeaderMatch (stripped : List Char) : Option Char :=
  match litP "SEMESTER:".data stripped with
  | none => none
  | some r1 =>
    match dropWsL r1 with
    | c :: _ => if c.isDigit then some c else none
    | [] => none

/-- One step of `re.sub(r"Page\s*\d+", "", line)`: a match at the position
returns the remainder after it. -/
def tryPage (l : List Char) : Option (List Char) := do
  let r1 ← litP "Page".data l
  let (_, r2) ← takeClass1 Char.isDigit (dropWsL r1)
  pure r2

/-- `re.sub(r"Page\s*\d+", "", line)` (fuel-driven, leftmost,
non-overlapping). -/
def subPageNums : Nat → List Char → List Char
  | 0, l => l
  | fuel + 1, l =>
    match l with
    | [] => []
    | c :: rest =>
      match tryPage (c :: rest) with
      | some rem => subPageNums fuel rem
      | none => c :: subPageNums fuel rest

/-- The fallback result inference of `parser_sy.main` (Phase 8): `FAIL` as
soon as any grade is fail-class, `PASS` otherwise. -/
def syInferResult (all_grades : List String) : String :=
  if all_grades.any
      (fun g => g = "F" || g = "FFF" || g = "FAIL" || g = "AB" || g = "Absent") then
    "FAIL"
  else "PASS"

/-- The dashboard-SGPA selection of `parser_sy.main` (Phase 9): only when
the result contains `PASS`, take the first explicit semester SGPA found in
the order Fourth, Third, Second, First; otherwise the sentinel `"-"`. -/
def syDashboardSgpa (result : String) (block : String) : String :=
  if pyIn "PASS" (upperS result) then
    match sySgpaLabelScan "Fourth" block with
    | some v => v
    | none =>
      match sySgpaLabelScan "Third" block with
      | some v => v
      | none =>
        match sySgpaLabelScan "Second" block with
        | some v => v
        | none =>
          match sySgpaLabelScan "First" block with
          | some v => v
          | none => "-"
  else "-"

/-- The per-semester accumulation state of `parser_sy.main` (Phase 7). -/
structure SemAcc where
  s1 : List SubjectMarks
  s2 : List SubjectMarks
  s3 : List SubjectMarks
  s4 : List SubjectMarks
  m1 : String
  m2 : String
  m3 : String
  m4 : String
deriving Repr, DecidableEq

/-- The empty `SemAcc` (the student dict's initial semester fields). -/
def SemAcc.empty : SemAcc :=
  { s1 := [], s2 := [], s3 := [], s4 := [], m1 := "", m2 := "", m3 := "", m4 := "" }

/-- `student[f"sem{d}_subjects"].append(row)`: `none` is the `KeyError`
raised when the semester digit is not 1–4 (which skips the whole block). -/
def syAddRow (acc : SemAcc) (d : Char) (row : SubjectMarks) : Option SemAcc :=
  if d = '1' then some { acc with s1 := acc.s1 ++ [row] }
  else if d = '2' then some { acc with s2 := acc.s2 ++ [row] }
  else if d = '3' then some { acc with s3 := acc.s3 ++ [row] }
  else if d = '4' then some { acc with s4 := acc.s4 ++ [row] }
  else none

/-- `student[f"sem{d}_summary"] = txt`, with the same `KeyError` behaviour. -/
def sySetSum (acc : SemAcc) (d : Char) (txt : String) : Option SemAcc :=
  if d = '1' then some { acc with m1 := txt }
  else if d = '2' then some { acc with m2 := txt }
  else if d = '3' then some { acc with m3 := txt }
  else if d = '4' then some { acc with m4 := txt }
  else none

/-- The line loop inside one semester part: parse each line as a subject
row, and capture the latest `SGPA` summary line (page numbers removed). -/
def syPartLines (smap : List (String × String)) (d : Char) :
    SemAcc → List String → Option SemAcc
  | acc, [] => some acc
  | acc, line :: rest => do
    let acc1 ←
      match parse_marks_row line smap with
      | some row => syAddRow acc d row
      | none => some acc
    let acc2 ←
      if pyIn "SGPA" line then
        sySetSum acc1 d (stripS (String.mk (subPageNums line.data.length line.data)))
      else some acc1
    syPartLines smap d acc2 rest

/-- The semester-part loop of Phase 7: `re.split` keeps the captured
`SEMESTER: d` delimiters in the list; a header part updates the current
semester, other parts are processed line-by-line under it. -/
def sySemFold (smap : List (String × String)) :
    Option Char → SemAcc → List String → Option SemAcc
  | _, acc, [] => some acc
  | cur, acc, part :: rest =>
    match syHeaderMatch (stripL part.data) with
    | some d => sySemFold smap (some d) acc rest
    | none =>
      match cur with
      | none => sySemFold smap cur acc rest
      | some d => do
        let acc1 ← syPartLines smap d acc (splitNl part)
        sySemFold smap (some d) acc1 rest

/-- A parsed SY student record (the student dict of `parser_sy.main`;
`result` is always a string by the time the record is emitted). -/
structure StudentSY where
  sem1_subjects : List SubjectMarks
  sem2_subjects : List SubjectMarks
  sem3_subjects : List SubjectMarks
  sem4_subjects : List SubjectMarks
  sem1_summary : String
  sem2_summary : String
  sem3_summary : String
  sem4_summary : String
  full_name : String
  seat_no : String
  prn : String
  mother_name : String
  result : String
  fy_total_msg : String
  total_marks : String
  dashboard_sgpa : String
  course_name : String
deriving Repr, DecidableEq

/-- Phases 4–9 of `parser_sy.main` for one student block.  `none` models an
exception inside the per-block `try` (the block is skipped). -/
def syBuildStudent (smap : List (String × String)) (course : String)
    (block : String) : Option StudentSY := do
  let acc ← sySemFold smap none SemAcc.empty (splitCap sySemDelim block.data)
  let prn := (syPrnBlockScan block.data).getD "-"
  let seat := (sySeatScan block.data).getD "-"
  let name := match syNameScan block.data with
    | some c => stripS c
    | none => "Unknown"
  let mother := (syMotherScan block.data).getD "-"
  let result := match syResultScan block.data with
    | some r => upperS (stripS r)
    | none =>
      syInferResult ((acc.s1 ++ acc.s2 ++ acc.s3 ++ acc.s4).map (·.grd))
  let cur := syDashboardSgpa result block
  pure { sem1_subjects := acc.s1, sem2_subjects := acc.s2,
         sem3_subjects := acc.s3, sem4_subjects := acc.s4,
         sem1_summary := acc.m1, sem2_summary := acc.m2,
         sem3_summary := acc.m3, sem4_summary := acc.m4,
         full_name := name, seat_no := seat, prn := prn, mother_name := mother,
         result := result,
         fy_total_msg := (syCredScan block.data).getD "",
         total_marks := cur, dashboard_sgpa := cur,
         course_name := course }

/-- The in-loop college recovery of `parser_sy.main`: while the shared
metadata still says `Unknown`, try to read the college name out of the
student block (a mutation of the shared dict, modelled by threading). -/
def syMetaStep (meta : Metadata) (b : String) : Metadata :=
  if meta.college_name = "Unknown" then
    match syLocalCollScan b.data with
    | some c => { meta with college_name := stripS c }
    | none => meta
  else meta

/-- The block loop of `parser_sy.main`: skip blocks without `SEMESTER`,
recover the college name while it is `Unknown`, build the student, and
append it only when a PRN was found. -/
def syLoop (smap : List (String × String)) :
    Metadata → List String → Metadata × List StudentSY
  | meta, [] => (meta, [])
  | meta, b :: rest =>
    if pyIn "SEMESTER" b then
      let meta1 := syMetaStep meta b
      match syBuildStudent smap meta1.course_name b with
      | some st =>
        if st.prn ≠ "-" then
          let r := syLoop smap meta1 rest
          (r.1, st :: r.2)
        else syLoop smap meta1 rest
      | none => syLoop smap meta1 rest
    else syLoop smap meta rest

/-- `parser_sy.main`: subject map and metadata, backup restoration, full
text, PRN-anchored block split, the block loop — and an envelope that is
`success := true` regardless of how many records were extracted. -/
def syMain (doc : List String) : Envelope StudentSY :=
  let mb := syExtractSubjectMapping doc
  let meta := syMergeBackup (syExtractHeaderMetadata doc) mb.2
  let full_text := joinNlS doc
  let blocks := splitBefore syPrnStart full_text.data
  let r := syLoop mb.1 meta blocks
  { success := true, error := none, college_info := some r.1, student_data := r.2 }

/-! ## `parser.py` — the gazette parser -/

/-- Matcher for `RESULT\s+OF\s+THE\s+(.*?)(?=\s+EXAMINATION|$)`
(`re.IGNORECASE`). -/
def tryGazCourse (l : List Char) : Option String := do
  let r1 ← litCI "RESULT".data l
  let (_, r2) ← takeClass1 pyWs r1
  let r3 ← litCI "OF".data r2
  let (_, r4) ← takeClass1 pyWs r3
  let r5 ← litCI "THE".data r4
  let (_, r6) ← takeClass1 pyWs r5
  let (cap, _) ←
    captureUntil (fun r => wsThenLitCI "EXAMINATION".data r || pyDollar r) false r6
  pure (String.mk cap)

/-- `re.search` for the gazette primary course pattern. -/
def gazCourseScan (l : List Char) : Option String := searchFrom tryGazCourse l

/-- Matcher for the gazette course fallback
`((?:BACHELOR|MASTER)\s+OF\s+.*?)(?=\s*\(|20\d{2}|$)` (`re.IGNORECASE`). -/
def tryGazCourseFb (l : List Char) : Option String := do
  let (kwLen, r1) ←
    match litCI "BACHELOR".data l with
    | some r => some (8, r)
    | none =>
      match litCI "MASTER".data l with
      | some r => some (6, r)
      | none => none
  let (w1, r2) ← takeClass1 pyWs r1
  let r3 ← litCI "OF".data r2
  let (w2, r4) ← takeClass1 pyWs r3
  let stop := fun rem =>
    (dropWsL rem).head? = some '(' ||
      (match rem with
       | '2' :: '0' :: d1 :: d2 :: _ => d1.isDigit && d2.isDigit
       | _ => false) ||
      pyDollar rem
  let (cap, _) ← captureUntil stop false r4
  pure (String.mk (l.take kwLen ++ w1 ++ (r2.take 2) ++ w2 ++ cap))

/-- `re.search` for the gazette course fallback. -/
def gazCourseFbScan (l : List Char) : Option String := searchFrom tryGazCourseFb l

/-- The lookahead `\s+PAGE\s*:` that ends the gazette college capture. -/
def wsThenPage (rem : List Char) : Bool :=
  let w := rem.takeWhile pyWs
  !w.isEmpty &&
    (match litCI "PAGE".data (rem.drop w.length) with
     | some r => (dropWsL r).head? = some ':'
     | none => false)

/-- `$` under `re.MULTILINE`: end of text or before any newline. -/
def mlDollar : List Char → Bool
  | [] => true
  | c :: _ => c = '\n'

/-- Matcher for `^\d{3,4}\s+(.*?)(?=\s+PAGE\s*:|$)`
(`re.MULTILINE | re.IGNORECASE`), applied at line starts: a three-or-four
digit run (a longer one cannot match), whitespace, then the lazy capture. -/
def tryGazCollege (l : List Char) : Option String := do
  let run := l.takeWhile Char.isDigit
  if run.length = 3 || run.length = 4 then do
    let (_, r2) ← takeClass1 pyWs (l.drop run.length)
    let (cap, _) ← captureUntil (fun r => wsThenPage r || mlDollar r) false r2
    pure (String.mk cap)
  else none

/-- Line-start search for the gazette college pattern. -/
def gazCollegeScan (l : List Char) : Option String := searchML tryGazCollege l

/-- Matcher for the gazette college fallback
`(?:PANCHAVATI|COLLEGE|INSTITUTE).*?(?=\s+PAGE\s*:|$)` (`re.IGNORECASE`,
whole match used). -/
def tryGazCollegeFb (l : List Char) : Option String := do
  let (kwLen, r1) ←
    match litCI "PANCHAVATI".data l with
    | some r => some (10, r)
    | none =>
      match litCI "COLLEGE".data l with
      | some r => some (7, r)
      | none =>
        match litCI "INSTITUTE".data l with
        | some r => some (9, r)
        | none => none
  let (cap, _) ← captureUntil (fun r => wsThenPage r || pyDollar r) false r1
  pure (String.mk (l.take kwLen ++ cap))

/-- `re.search` for the gazette college fallback. -/
def gazCollegeFbScan (l : List Char) : Option String := searchFrom tryGazCollegeFb l

/-- `parser.extract_header_metadata`: first page only; `pun_code` is
initialised to Python `None` and never assigned; an unreadable or empty
first page leaves every field at its default. -/
def gazHeaderMeta (doc : List String) : Metadata :=
  match doc with
  | [] => { pun_code := none, course_name := "Unknown", college_name := "Unknown" }
  | p :: _ =>
    if p = "" then { pun_code := none, course_name := "Unknown", college_name := "Unknown" }
    else
      let course := match gazCourseScan p.data with
        | some v => stripS v
        | none =>
          match gazCourseFbScan p.data with
          | some v => stripS v
          | none => "Unknown"
      let college := match gazCollegeScan p.data with
        | some v => stripS v
        | none =>
          match gazCollegeFbScan p.data with
          | some v => stripS v
          | none => "Unknown"
      { pun_code := none, course_name := course, college_name := college }

/-- The matched identity groups of the gazette profile pattern. -/
structure GazInfo where
  seat : String
  rawname : String
  sex : Char
  prn : String
deriving Repr, DecidableEq

/-- The tail `\s+([MF])\s+(\d{10,})` of the gazette identity pattern. -/
def gazIdTail (rem : List Char) : Option (Char × String) := do
  let (_, r1) ← takeClass1 pyWs rem
  match r1 with
  | c :: r2 =>
    if c = 'M' || c = 'F' then do
      let (_, r3) ← takeClass1 pyWs r2
      let (d, _) ← takeClass1 Char.isDigit r3
      if 10 ≤ d.length then pure (c, String.mk d) else none
    else none
  | [] => none

/-- Matcher for `(\d{4,})\s+(.+?)\s+([MF])\s+(\d{10,})`: a seat number of at
least four digits, the lazy single-line name, the sex marker, and a PRN of
at least ten digits. -/
def tryGazInfo (l : List Char) : Option GazInfo :=
  if 4 ≤ (l.takeWhile Char.isDigit).length then
    match takeClass1 pyWs (l.drop (l.takeWhile Char.isDigit).length) with
    | none => none
    | some (_, r2) =>
      match captureUntil1 (fun r => (gazIdTail r).isSome) false r2 with
      | none => none
      | some (cap, rem) =>
        match gazIdTail rem with
        | none => none
        | some t =>
          some { seat := String.mk (l.takeWhile Char.isDigit),
                 rawname := String.mk cap, sex := t.1, prn := t.2 }
  else none

/-- `re.search` for the gazette identity pattern. -/
def gazInfoScan (l : List Char) : Option GazInfo := searchFrom tryGazInfo l

/-- The lookahead `\s+\d{5}\s*:` announcing the next subject code. -/
def wsThenSubjectCode (rem : List Char) : Bool :=
  let w := rem.takeWhile pyWs
  !w.isEmpty &&
    (match rem.drop w.length with
     | d1 :: d2 :: d3 :: d4 :: d5 :: r2 =>
       d1.isDigit && d2.isDigit && d3.isDigit && d4.isDigit && d5.isDigit &&
         (dropWsL r2).head? = some ':'
     | _ => false)

/-- The subject-capture stop `(?=\s+\d{5}\s*:|\s+GR|$)`. -/
def gazSubjectStop (rem : List Char) : Bool :=
  wsThenSubjectCode rem || wsThenLit "GR".data rem || pyDollar rem

/-- Matcher for one `(\d{5})\s*:\s*(.*?)(?=…)` subject entry; returns the
code, the raw marks text and the remainder (for `finditer`). -/
def tryGazSubject (l : List Char) : Option (String × String × List Char) := do
  match l with
  | d1 :: d2 :: d3 :: d4 :: d5 :: r1 =>
    if d1.isDigit && d2.isDigit && d3.isDigit && d4.isDigit && d5.isDigit then do
      let r2 ← litP ":".data (dropWsL r1)
      let (cap, rem) ← captureUntil gazSubjectStop false (dropWsL r2)
      pure (String.mk [d1, d2, d3, d4, d5], String.mk cap, rem)
    else none
  | _ => none

/-- `re.finditer` driver: repeatedly find the leftmost match and continue
after it (the matcher consumes at least one character on success). -/
def finditerAux (t : List Char → Option (α × List Char)) :
    Nat → List Char → List α
  | 0, _ => []
  | fuel + 1, l =>
    match l with
    | [] => []
    | c :: rest =>
      match t (c :: rest) with
      | some (a, rem) => a :: finditerAux t fuel rem
      | none => finditerAux t fuel rest

/-- `re.finditer` over a whole text. -/
def finditer (t : List Char → Option (α × List Char)) (l : List Char) : List α :=
  finditerAux t (l.length + 1) l

/-- The `*`/`$` symbol merge of the gazette subject-row processing. -/
def gazMergeMarks : List String → List String
  | [] => []
  | t :: rest =>
    if t = "*" || t = "$" then
      match rest with
      | u :: rest2 => (t ++ " " ++ u) :: gazMergeMarks rest2
      | [] => t :: gazMergeMarks []
    else t :: gazMergeMarks rest

/-- A gazette subject entry (regular or GR add-on). -/
structure SubjectGaz where
  code : String
  internal : String
  external : String
  total : String
  grade : String
  credits : String
deriving Repr, DecidableEq

/-- Build one regular gazette subject from a `(code, raw marks)` pair:
needs at least a grade and credits at the end; symbols merge with their
values; the first three processed fields are internal/external/total. -/
def gazSubjectOf (p : String × String × List Char) : Option SubjectGaz :=
  let parts := pySplit (stripS p.2.1)
  if parts.length < 2 then none
  else
    let credits := parts.getLastD ""
    let grade := parts.getD (parts.length - 2) ""
    let processed := gazMergeMarks (parts.take (parts.length - 2))
    some { code := p.1,
           internal := processed.getD 0 "-",
           external := processed.getD 1 "-",
           total := processed.getD 2 "-",
           grade := grade, credits := credits }

/-- Matcher for one GR add-on subject
`(GR\d-[A-Z])\s*:\s*!?\s*([A-Z\+]+)\s+(\d+)`; returns the subject and the
remainder. -/
def tryGazGr (l : List Char) : Option (SubjectGaz × List Char) := do
  let r1 ← litP "GR".data l
  match r1 with
  | d :: '-' :: u :: r2 =>
    if d.isDigit && u.isUpper then do
      let r3 ← litP ":".data (dropWsL r2)
      let r4 := dropWsL r3
      let r5 := match r4 with
        | '!' :: t => dropWsL t
        | _ => r4
      let (g, r6) ← takeClass1 (fun c => c.isUpper || c = '+') r5
      let (_, r7) ← takeClass1 pyWs r6
      let (cr, r8) ← takeClass1 Char.isDigit r7
      pure ({ code := String.mk ['G', 'R', d, '-', u],
              internal := "-", external := "-", total := "-",
              grade := stripS (String.mk g), credits := stripS (String.mk cr) },
            r8)
    else none
  | _ => none

/-- Matcher for `SGPA\s*:\s*(.*?)(?:TOTAL|CGPA|$)` (`re.DOTALL`). -/
def tryGazSgpa (l : List Char) : Option String := do
  let r1 ← litP "SGPA".data l
  let r2 ← litP ":".data (dropWsL r1)
  let stop := fun rem =>
    "TOTAL".data.isPrefixOf rem || "CGPA".data.isPrefixOf rem || pyDollar rem
  let (cap, _) ← captureUntil stop true (dropWsL r2)
  pure (String.mk cap)

/-- Matcher for one `\((\d)\)\s*([\d\.]+)` pair inside the SGPA region. -/
def tryGazSgpaPair (l : List Char) : Option ((String × String) × List Char) := do
  match l with
  | '(' :: d :: ')' :: r1 =>
    if d.isDigit then do
      let (v, r2) ← takeClass1 digitDot (dropWsL r1)
      pure ((String.mk [d], String.mk v), r2)
    else none
  | _ => none

/-- Matcher for `TOTAL\s+(\d+)\s+\d+\s+(\d+)`-shaped summary lines, after
the given leading literal. -/
def tryTotals (lead : List Char) (l : List Char) : Option (String × String) := do
  let r1 ← litP lead l
  let (_, r2) ← takeClass1 pyWs r1
  let (a, r3) ← takeClass1 Char.isDigit r2
  let (_, r4) ← takeClass1 pyWs r3
  let (_, r5) ← takeClass1 Char.isDigit r4
  let (_, r6) ← takeClass1 pyWs r5
  let (b, _) ← takeClass1 Char.isDigit r6
  pure (String.mk a, String.mk b)

/-- `re.search(r"CGPA\s*:\s*([\d\.]+)", block)`. -/
def gazCgpaScan (l : List Char) : Option String :=
  searchFrom (fun s => do
    let r1 ← litP "CGPA".data s
    let r2 ← litP ":".data (dropWsL r1)
    let (v, _) ← takeClass1 digitDot (dropWsL r2)
    pure (String.mk v)) l

/-- `re.search(r"FINAL GRADE\s*:\s*(.*?)($|\n|The student)", block)`. -/
def gazFinalGradeScan (l : List Char) : Option String :=
  searchFrom (fun s => do
    let r1 ← litP "FINAL GRADE".data s
    let r2 ← litP ":".data (dropWsL r1)
    let stop := fun rem =>
      pyDollar rem || rem.head? = some '\n' || "The student".data.isPrefixOf rem
    let (cap, _) ← captureUntil stop false (dropWsL r2)
    pure (String.mk cap)) l

/-- `re.search(r"(O\.\d+\s+balance marks\s*:\s*\d+)", block)` — the whole
balance-marks note. -/
def gazBalanceScan (l : List Char) : Option String :=
  searchFrom (fun s => do
    let r1 ← litP "O.".data s
    let (d1, r2) ← takeClass1 Char.isDigit r1
    let (w1, r3) ← takeClass1 pyWs r2
    let r4 ← litP "balance marks".data r3
    let w2 := r4.takeWhile pyWs
    let r5 ← litP ":".data (r4.drop w2.length)
    let w3 := r5.takeWhile pyWs
    let (d2, _) ← takeClass1 Char.isDigit (r5.drop w3.length)
    pure (String.mk ("O.".data ++ d1 ++ w1 ++ "balance marks".data ++ w2 ++
      ':' :: w3 ++ d2))) l

/-- Matcher for the failure-status alternation
`(FAIL\s+A\.T\.K\.T\.|RESULT\s*:\s*FAIL|FAIL\s+\$\s+0\.1)` (`re.IGNORECASE`);
returns the matched text. -/
def tryGazFail (l : List Char) : Option String :=
  let alt1 : Option (List Char) := do
    let r1 ← litCI "FAIL".data l
    let (_, r2) ← takeClass1 pyWs r1
    litCI "A.T.K.T.".data r2
  let alt2 : Option (List Char) := do
    let r1 ← litCI "RESULT".data l
    let r2 ← litP ":".data (dropWsL r1)
    litCI "FAIL".data (dropWsL r2)
  let alt3 : Option (List Char) := do
    let r1 ← litCI "FAIL".data l
    let (_, r2) ← takeClass1 pyWs r1
    let r3 ← litP "$".data r2
    let (_, r4) ← takeClass1 pyWs r3
    litCI "0.1".data r4
  match alt1 with
  | some rem => some (String.mk (l.take (l.length - rem.length)))
  | none =>
    match alt2 with
    | some rem => some (String.mk (l.take (l.length - rem.length)))
    | none =>
      match alt3 with
      | some rem => some (String.mk (l.take (l.length - rem.length)))
      | none => none

/-- `re.search` for the gazette failure-status pattern. -/
def gazFailScan (l : List Char) : Option String := searchFrom tryGazFail l

/-- A parsed gazette student record.  The `sgpa` mapping is kept as the
insertion-ordered list of `(semester, score)` pairs. -/
structure StudentGaz where
  seat_no : String
  prn : String
  full_name : String
  mother_name : String
  gender : String
  subjects : List SubjectGaz
  sgpa : List (String × String)
  total_credits : String
  total_marks : String
  fy_credits : String
  fy_marks : String
  cgpa : String
  final_grade : String
  result : String
  extra_notes : List String
deriving Repr, DecidableEq

/-- `parser.parse_gazette_block`: the identity pattern is mandatory
(`none` discards the block); then subjects, GR add-ons, SGPA pairs,
totals, CGPA/final grade, notes, and the failure override. -/
def parse_gazette_block (block : String) : Option StudentGaz :=
  match gazInfoScan block.data with
  | none => none
  | some info =>
    let raw_name := stripS info.rawname
    let name_parts := pySplit raw_name
    let fm : String × String :=
      if 1 < name_parts.length then
        (joinSpaceS name_parts.dropLast, name_parts.getLastD "-")
      else (raw_name, "-")
    let subjects :=
      (finditer
        (fun l => (tryGazSubject l).map fun t => ((t.1, t.2.1), t.2.2))
        block.data).filterMap
        (fun p => gazSubjectOf (p.1, p.2, []))
      ++ finditer tryGazGr block.data
    let sgpa := match searchFrom tryGazSgpa block.data with
      | some region => finditer tryGazSgpaPair region.data
      | none => []
    let totals := searchFrom (tryTotals "TOTAL".data) block.data
    let fy := searchFrom (tryTotals "F.Y.TOTAL".data) block.data
    let cgpa := gazCgpaScan block.data
    let result1 := match cgpa with
      | some _ => "PASS"
      | none => "FAIL"
    let notes1 : List String :=
      if pyIn "balance marks" block then
        match gazBalanceScan block.data with
        | some n => [n]
        | none => []
      else []
    let notes2 :=
      if pyIn "completed mandetory" block || pyIn "completed mandatory" block then
        notes1 ++ ["The student has completed mandetory add-on credits for this programme."]
      else notes1
    let result2 := match gazFailScan block.data with
      | some txt =>
        if pyIn "A.T.K.T" (upperS txt) then "FAIL A.T.K.T." else "FAIL"
      | none => result1
    some { seat_no := info.seat, prn := info.prn,
           full_name := fm.1, mother_name := fm.2,
           gender := if info.sex = 'M' then "Male" else "Female",
           subjects := subjects, sgpa := sgpa,
           total_credits := (totals.map (·.1)).getD "-",
           total_marks := (totals.map (·.2)).getD "-",
           fy_credits := (fy.map (·.1)).getD "-",
           fy_marks := (fy.map (·.2)).getD "-",
           cgpa := cgpa.getD "-",
           final_grade := match gazFinalGradeScan block.data with
             | some g => stripS g
             | none => "-",
           result := result2,
           extra_notes := notes2 }

/-- The delimiter `-{30,}` of the gazette block split: a maximal dash run
of length at least 30. -/
def gazDashDelim (l : List Char) : Option (List Char) :=
  let run := l.takeWhile (fun c => c = '-')
  if 30 ≤ run.length then some (l.drop run.length) else none

/-- The block loop of `parser.analyze_gazette_pattern`: keep nonempty
blocks without the `SEAT NO.` header, and every block the block parser
accepts. -/
def gazLoop : List String → List StudentGaz
  | [] => []
  | b :: rest =>
    if stripS b ≠ "" && !(pyIn "SEAT NO." b) then
      match parse_gazette_block b with
      | some s => s :: gazLoop rest
      | none => gazLoop rest
    else gazLoop rest

/-- `parser.analyze_gazette_pattern`: split on long dash runs, then loop. -/
def analyze_gazette_pattern (full_text : String) : List StudentGaz :=
  gazLoop (splitByDelim gazDashDelim full_text.data)

/-- `parser.main`: metadata, joined page text, block analysis; the envelope
is successful exactly when at least one student was extracted. -/
def gazMain (doc : List String) : Envelope StudentGaz :=
  if (analyze_gazette_pattern (joinNlS doc)).isEmpty then
    { success := false,
      error := some "No recognizable student records were identified in the PDF.",
      college_info := none, student_data := [] }
  else
    { success := true, error := none, college_info := some (gazHeaderMeta doc),
      student_data := analyze_gazette_pattern (joinNlS doc) }

/-! ## `parser_nep.py` — subject mapping, header metadata and `main` -/

/-- One candidate of the NEP mapping pattern
`^([A-Z0-9-]{3,15})\s+([A-Za-z].*)` at a line start: a code run of 3–15
class characters followed by whitespace (a longer run cannot match), then
a letter-initial name running to the end of the line; returns the pair and
the remainder after the match (for the `MULTILINE` `findall`). -/
def tryNepMapRow (l : List Char) : Option ((String × String) × List Char) := do
  let (run, r1) ← takeClass1 codeChar l
  if 3 ≤ run.length && run.length ≤ 15 then do
    let (_, r2) ← takeClass1 pyWs r1
    match r2 with
    | c :: _ =>
      if c.isAlpha then
        let nm := r2.takeWhile (fun ch => ch ≠ '\n')
        pure ((String.mk run, String.mk nm), r2.drop nm.length)
      else none
    | [] => none
  else none

/-- The `MULTILINE` `findall` driver for the NEP mapping rows: try each
line start, continuing after a match. -/
def nepMapRowsAux : Nat → Bool → List Char → List ((String × String))
  | 0, _, _ => []
  | _ + 1, _, [] => []
  | fuel + 1, atStart, c :: rest =>
    if atStart then
      match tryNepMapRow (c :: rest) with
      | some (p, rem) => p :: nepMapRowsAux fuel false rem
      | none => nepMapRowsAux fuel (c = '\n') rest
    else nepMapRowsAux fuel (c = '\n') rest

/-- `re.findall(r"^([A-Z0-9-]{3,15})\s+([A-Za-z].*)", area, re.MULTILINE)`. -/
def nepMapRows (l : List Char) : List (String × String) :=
  nepMapRowsAux (l.length + 1) true l

/-- Index of the first occurrence of `needle` (Python `str.find` as an
`Option`): the prefix before it, used to cut the mapping area. -/
def beforeSub (needle : List Char) : List Char → Option (List Char)
  | [] => if needle.isEmpty then some [] else none
  | c :: rest =>
    if needle.isPrefixOf (c :: rest) then some []
    else
      match beforeSub needle rest with
      | some pre => some (c :: pre)
      | none => none

/-- `parser_nep.extract_subject_mapping`: page by page, cut the text at the
first `PRN:`, collect code/name rows (names cleaned of leading symbols),
and stop after the first page containing `PRN:`. -/
def nepExtractSubjectMapping : List String → List (String × String) → List (String × String)
  | [], m => m
  | text :: rest, m =>
    if text = "" then nepExtractSubjectMapping rest m
    else
      let cut := beforeSub "PRN:".data text.data
      let area := match cut with
        | some pre => pre
        | none => text.data
      let m2 := (nepMapRows area).foldl
        (fun acc p =>
          let code := stripS p.1
          let name := stripS (String.mk
            (lstripClass (fun c => c = ':' || c = '-' || c = '!' || pyWs c) p.2.data))
          if 3 ≤ code.length then assocPut acc code name else acc)
        m
      match cut with
      | some _ => m2
      | none => nepExtractSubjectMapping rest m2

/-- Matcher for the NEP course pattern
`PUNE-\d{3}\s*\d{3}\s*\n(.*?)\nCollege Ledger` (`re.DOTALL`): the
`\s*\n` pieces end at the last newline of each whitespace run. -/
def tryNepCourse (l : List Char) : Option String := do
  let r1 ← litP "PUNE-".data l
  match r1 with
  | a :: b :: c :: r2 =>
    if a.isDigit && b.isDigit && c.isDigit then do
      match dropWsL r2 with
      | d :: e :: f :: r3 =>
        if d.isDigit && e.isDigit && f.isDigit then do
          let w := r3.takeWhile pyWs
          if w.contains '\n' then do
            let afterNl := r3.drop ((w.reverse.dropWhile (fun ch => ch ≠ '\n')).reverse.length)
            let (cap, _) ←
              captureUntil (fun rem => "\nCollege Ledger".data.isPrefixOf rem) true afterNl
            pure (String.mk cap)
          else none
        else none
      | _ => none
    else none
  | _ => none

/-- `re.search` for the NEP course pattern. -/
def nepCourseScan (l : List Char) : Option String := searchFrom tryNepCourse l

/-- Matcher for the NEP course fallback
`(BACHELOR|MASTER)\s+OF\s+.*?(?=\n)` (`re.IGNORECASE`, whole match). -/
def tryNepCourseFb (l : List Char) : Option String := do
  let (kwLen, r1) ←
    match litCI "BACHELOR".data l with
    | some r => some (8, r)
    | none =>
      match litCI "MASTER".data l with
      | some r => some (6, r)
      | none => none
  let (w1, r2) ← takeClass1 pyWs r1
  let r3 ← litCI "OF".data r2
  let (w2, r4) ← takeClass1 pyWs r3
  let (cap, _) ← captureUntil (fun rem => rem.head? = some '\n') false r4
  pure (String.mk (l.take kwLen ++ w1 ++ (r2.take 2) ++ w2 ++ cap))

/-- `re.search` for the NEP course fallback. -/
def nepCourseFbScan (l : List Char) : Option String := searchFrom tryNepCourseFb l

/-- Matcher for the NEP college pattern `\[\d{4}\]\s*(.*?)(?=\n|\[)` — the
lookahead has no `$` alternative, so a college line at the very end of the
page text (no later newline or bracket) does not match. -/
def tryNepCollege (l : List Char) : Option String := do
  let r1 ← litP "[".data l
  match r1 with
  | d1 :: d2 :: d3 :: d4 :: ']' :: r2 =>
    if d1.isDigit && d2.isDigit && d3.isDigit && d4.isDigit then do
      let (cap, _) ←
        captureUntil (fun rem => rem.head? = some '\n' || rem.head? = some '[')
          false (dropWsL r2)
      pure (String.mk cap)
    else none
  | _ => none

/-- `re.search` for the NEP college pattern. -/
def nepCollegeScan (l : List Char) : Option String := searchFrom tryNepCollege l

/-- `parser_nep.extract_header_metadata`: first page only; every
unrecovered field stays `"Unknown"`. -/
def nepHeaderMeta (doc : List String) : Metadata :=
  match doc with
  | [] => { pun_code := some "Unknown", course_name := "Unknown", college_name := "Unknown" }
  | p :: _ =>
    if p = "" then
      { pun_code := some "Unknown", course_name := "Unknown", college_name := "Unknown" }
    else
      { pun_code := match syPunScan p.data with
          | some v => some (stripS v)
          | none => some "Unknown",
        course_name := match nepCourseScan p.data with
          | some v => stripS v
          | none =>
            match nepCourseFbScan p.data with
            | some v => stripS v
            | none => "Unknown",
        college_name := match nepCollegeScan p.data with
          | some v => stripS v
          | none => "Unknown" }

/-- The position lookahead `(?=PRN[:\s])` of the NEP block split. -/
def nepPrnStart (l : List Char) : Bool :=
  match litP "PRN".data l with
  | some (c :: _) => c = ':' || pyWs c
  | _ => false

/-- The per-page block loop of `parser_nep.main`. -/
def nepBlocksOf (smap : List (String × String)) (course : String) (text : String) :
    List StudentNEP :=
  (splitBefore nepPrnStart text.data).filterMap fun b =>
    if pyIn "SEMESTER" (upperS b) then
      (parse_nep_block b smap).map fun r => { r with course_name := course }
    else none

/-- The student list assembled by `parser_nep.main`: pages are split into
PRN-anchored blocks, blocks mentioning a semester are parsed. -/
def nepStudents (doc : List String) : List StudentNEP :=
  (doc.map fun text =>
    if text = "" then []
    else nepBlocksOf (nepExtractSubjectMapping doc []) (nepHeaderMeta doc).course_name text).flatten

/-- `parser_nep.main`: subject map, metadata, per-page block splitting, and
an envelope that fails exactly when no student was extracted. -/
def nepMain (doc : List String) : Envelope StudentNEP :=
  if (nepStudents doc).isEmpty then
    { success := false, error := some "No valid NEP student records found.",
      college_info := none, student_data := [] }
  else
    { success := true, error := none, college_info := some (nepHeaderMeta doc),
      student_data := nepStudents doc }

/-! ## Helper lemmas -/

/-- A successful `takeClass1` returns a nonempty run. -/
theorem takeClass1_some {p : Char → Bool} {l r rest : List Char}
    (h : takeClass1 p l = some (r, rest)) : r ≠ [] := by
  by_cases he : (List.takeWhile p l).isEmpty
  · simp [takeClass1, he] at h
  · simp [takeClass1, he] at h
    rw [← h.1]
    simpa [List.isEmpty_iff] using he

/-- `String.mk` of a nonempty character list is not the empty string. -/
theorem mk_ne_empty {l : List Char} (h : l ≠ []) : String.mk l ≠ "" := by
  intro he
  apply h
  have hd := congrArg String.data he
  simpa using hd

/-- A property of every value a matcher can return transfers to the
leftmost search built from it. -/
theorem searchFrom_pred {α : Type} {P : α → Prop} {t : List Char → Option α}
    (h : ∀ l r, t l = some r → P r) :
    ∀ l r, searchFrom t l = some r → P r := by
  intro l
  induction l with
  | nil => intro r hr; exact h [] r hr
  | cons c rest ih =>
    intro r hr
    unfold searchFrom at hr
    split at hr
    · rename_i heq
      cases hr
      exact h _ _ heq
    · exact ih r hr

theorem tryNepPrn_ne : ∀ l s, tryNepPrn l = some s → s ≠ "" := by
  intro l s h
  simp only [tryNepPrn, bind, Option.bind_eq_some, pure, Option.some.injEq] at h
  obtain ⟨r1, hlit, ⟨d, rest⟩, htk, hs⟩ := h
  rw [← hs]
  exact mk_ne_empty (takeClass1_some htk)

theorem nepPrnScan_ne : ∀ l s, nepPrnScan l = some s → s ≠ "" :=
  searchFrom_pred tryNepPrn_ne

theorem parse_nep_block_prn : ∀ b m r, parse_nep_block b m = some r → r.prn ≠ "" := by
  intro b m r h
  unfold parse_nep_block at h
  rcases hprn : nepPrnScan b.data with _ | prn <;> rw [hprn] at h
  · simp at h
  · rcases hseat : nepSeatScan b.data with _ | seat <;> rw [hseat] at h
    · simp at h
    · simp only [Option.some.injEq] at h
      rw [← h]
      exact nepPrnScan_ne _ _ hprn

theorem nepBlocksOf_prn : ∀ smap c t r, r ∈ nepBlocksOf smap c t → r.prn ≠ "" := by
  intro smap c t r h
  unfold nepBlocksOf at h
  rw [List.mem_filterMap] at h
  obtain ⟨b, _, hf⟩ := h
  split at hf
  · rw [Option.map_eq_some'] at hf
    obtain ⟨x, hx, hr⟩ := hf
    have := parse_nep_block_prn b smap x hx
    rw [← hr]
    exact this
  · exact absurd hf (by simp)

theorem nepStudents_prn : ∀ doc r, r ∈ nepStudents doc → r.prn ≠ "" := by
  intro doc r h
  unfold nepStudents at h
  rw [List.mem_flatten] at h
  obtain ⟨l, hl, hr⟩ := h
  rw [List.mem_map] at hl
  obtain ⟨page, _, hpage⟩ := hl
  rw [← hpage] at hr
  split at hr
  · simp at hr
  · exact nepBlocksOf_prn _ _ _ _ hr

theorem nepMain_prn : ∀ doc r, r ∈ (nepMain doc).student_data → r.prn ≠ "" := by
  intro doc r h
  unfold nepMain at h
  split at h
  · simp at h
  · exact nepStudents_prn doc r h

theorem tryGazInfo_seat : ∀ l i, tryGazInfo l = some i → i.seat ≠ "" := by
  intro l i h
  unfold tryGazInfo at h
  by_cases hlen : 4 ≤ (List.takeWhile Char.isDigit l).length
  · rw [if_pos hlen] at h
    rcases h1 : takeClass1 pyWs (l.drop (List.takeWhile Char.isDigit l).length)
      with _ | wr <;> rw [h1] at h
    · simp at h
    · obtain ⟨w, r2⟩ := wr
      dsimp only at h
      rcases h2 : captureUntil1 (fun r => (gazIdTail r).isSome) false r2
        with _ | cr <;> rw [h2] at h
      · simp at h
      · obtain ⟨cap, rem⟩ := cr
        dsimp only at h
        rcases h3 : gazIdTail rem with _ | t <;> rw [h3] at h
        · simp at h
        · simp only [Option.some.injEq] at h
          rw [← h]
          apply mk_ne_empty
          intro hemp
          rw [hemp] at hlen
          simp at hlen
  · rw [if_neg hlen] at h
    exact absurd h (by simp)

theorem gazInfoScan_seat : ∀ l i, gazInfoScan l = some i → i.seat ≠ "" :=
  searchFrom_pred tryGazInfo_seat

theorem parse_gazette_block_seat : ∀ b r, parse_gazette_block b = some r → r.seat_no ≠ "" := by
  intro b r h
  unfold parse_gazette_block at h
  rcases hinfo : gazInfoScan b.data with _ | info <;> rw [hinfo] at h
  · simp at h
  · simp only [Option.some.injEq] at h
    rw [← h]
    exact gazInfoScan_seat _ _ hinfo

theorem gazLoop_seat : ∀ bs r, r ∈ gazLoop bs → r.seat_no ≠ "" := by
  intro bs
  induction bs with
  | nil => intro r h; simp [gazLoop] at h
  | cons b rest ih =>
    intro r h
    unfold gazLoop at h
    split at h
    · split at h
      · rename_i s hs
        rcases List.mem_cons.mp h with heq | hmem
        · rw [heq]
          exact parse_gazette_block_seat _ _ hs
        · exact ih r hmem
      · exact ih r h
    · exact ih r h

theorem gazMain_seat : ∀ doc r, r ∈ (gazMain doc).student_data → r.seat_no ≠ "" := by
  intro doc r h
  unfold gazMain at h
  split at h
  · simp at h
  · exact gazLoop_seat _ r h

theorem trySyPrnBlock_ne : ∀ l s, trySyPrnBlock l = some s → s ≠ "" := by
  intro l s h
  simp only [trySyPrnBlock, bind, Option.bind_eq_some, pure, Option.some.injEq] at h
  obtain ⟨r1, hlit, ⟨d, rest⟩, htk, hs⟩ := h
  rw [← hs]
  exact mk_ne_empty (takeClass1_some htk)

theorem syPrnBlockScan_ne : ∀ l s, syPrnBlockScan l = some s → s ≠ "" :=
  searchFrom_pred trySyPrnBlock_ne

theorem syBuildStudent_facts :
    ∀ smap c b st, syBuildStudent smap c b = some st →
      st.prn = (syPrnBlockScan b.data).getD "-" ∧ st.total_marks = st.dashboard_sgpa := by
  intro smap c b st h
  simp only [syBuildStudent, bind, Option.bind_eq_some, pure, Option.some.injEq] at h
  obtain ⟨acc, hacc, hst⟩ := h
  rw [← hst]
  constructor <;> rfl

theorem syLoop_facts :
    ∀ smap bs meta st, st ∈ (syLoop smap meta bs).2 →
      st.prn ≠ "" ∧ st.total_marks = st.dashboard_sgpa := by
  intro smap bs
  induction bs with
  | nil => intro meta st h; simp [syLoop] at h
  | cons b rest ih =>
    intro meta st h
    unfold syLoop at h
    split at h
    · dsimp only at h
      split at h
      · rename_i stX hbuild
        split at h
        · rename_i hguard
          dsimp only at h
          rcases List.mem_cons.mp h with heq | hmem
          · subst heq
            obtain ⟨hprn, htm⟩ := syBuildStudent_facts _ _ _ _ hbuild
            refine ⟨?_, htm⟩
            rcases hscan : syPrnBlockScan b.data with _ | d
            · rw [hscan] at hprn
              simp at hprn
              exact absurd hprn hguard
            · rw [hscan] at hprn
              simp at hprn
              rw [hprn]
              exact syPrnBlockScan_ne _ _ hscan
          · exact ih _ st hmem
        · exact ih _ st h
      · exact ih _ st h
    · exact ih _ st h

theorem syMain_facts :
    ∀ doc st, st ∈ (syMain doc).student_data →
      st.prn ≠ "" ∧ st.total_marks = st.dashboard_sgpa := by
  intro doc st h
  exact syLoop_facts _ _ _ _ h

/-! ## Claim theorems -/

/-- Claim C2: for the synthetic subject-row token list
`[CODE, 45, 38, 83, 4, 4, "A", 8, 32]` (with `CODE` instantiated to the
subject code `BBA-101` and any subject map), the SY row tokenizer
`parse_marks_row` resolves `grd="A"`, `crd="4"`, `ern="4"`, `total="83"`,
`gp="8"`, `cp="32"`, and maps the two leading numeric tokens `45`, `38` to
the internal and external marks. -/
theorem C2_grade_anchoring :
    ∀ m : List (String × String),
      (parse_marks_row "BBA-101 45 38 83 4 4 A 8 32" m).map
          (fun r => (r.grd, r.crd, r.ern, r.total, r.gp, r.cp, r.int_m, r.ext_m))
        = some ("A", "4", "4", "83", "8", "32", "45", "38") := by
  intro m
  rfl

/-- Claim C8: each of the raw mark tokens `---`, `AB`, `AAA` decomposes to
the absence pair `("-", "-")` under `split_prefix_marks`, never to a
numeric value. -/
theorem C8_absence_sentinels :
    split_prefix_marks "---" = ("-", "-") ∧
      split_prefix_marks "AB" = ("-", "-") ∧
      split_prefix_marks "AAA" = ("-", "-") := by
  decide

/-- Claim C9: the marks token sequence `["P", "45", "38"]` merges to
`["P 45", "38"]` in both the SY and the NEP merge loops, the merged field
splits to prefix `P` and value `45`, and in general any known SY prefix
symbol immediately followed by a token merges with it into one field. -/
theorem C9_prefix_merge :
    syMergeMarks ["P", "45", "38"] = ["P 45", "38"] ∧
      split_prefix_marks "P 45" = ("P", "45") ∧
      nepMergeMarks ["P", "45", "38"] = ["P 45", "38"] ∧
      ∀ (t u : String) (rest : List String),
        t ∈ (["P", "*", "~", "#", "$", "@"] : List String) →
          syMergeMarks (t :: u :: rest) = (t ++ " " ++ u) :: syMergeMarks rest := by
  refine ⟨by decide, by decide, by decide, ?_⟩
  intro t u rest ht
  fin_cases ht <;> rfl

/-- Witness for C9: the general merge clause applied at the concrete
prefix `*` and tokens `7`, `9`. -/
theorem C9_prefix_merge_witness :
    syMergeMarks ["*", "7", "9"] = ["* 7", "9"] := by
  have h := C9_prefix_merge.2.2.2 "*" "7" ["9"] (by decide)
  rw [h]
  decide

/-- Claim C4 fails on the code: for the row
`20001: 50 40 90 3 3 B+ 9 27` the grade pivot is `B+` at index 6, the
tokens to its right are `9`, `27`, and the claim would therefore force
`(ern, gp, cp) = ("9", "27", "0")`; `parse_marks_row` instead takes the
earned credits from the token immediately left of the grade, producing
`(ern, gp, cp) = ("3", "9", "27")`. -/
theorem C4_counterexample :
    gradeScan (pySplit "20001: 50 40 90 3 3 B+ 9 27") = some (6, "B+") ∧
      (parse_marks_row "20001: 50 40 90 3 3 B+ 9 27" []).map
          (fun r => (r.ern, r.gp, r.cp)) = some ("3", "9", "27") ∧
      (parse_marks_row "20001: 50 40 90 3 3 B+ 9 27" []).map
          (fun r => (r.ern, r.gp, r.cp)) ≠ some ("9", "27", "0") := by
  refine ⟨by decide, by decide, by decide⟩

/-- Claim C4 (amended): after the grade token is located as pivot, the
tokens to its right are, in order, grade-point and credit-point, each
defaulting to `"0"` when past the end of the token list; earned credits
are taken from the token immediately left of the pivot (with Python's
negative-index wrap-around). -/
theorem C4_amended (parts : List String) (m : List (String × String))
    (gi : Nat) (gv : String) (r : SubjectMarks)
    (hg : gradeScan parts = some (gi, gv))
    (hp : syParseRowTokens parts m = some r) :
    r.gp = (parts.get? (gi + 1)).getD "0" ∧
      r.cp = (parts.get? (gi + 2)).getD "0" ∧
      pyIdx parts ((gi : Int) - 1) = some r.ern := by
  unfold syParseRowTokens at hp
  by_cases hlen : parts.length < 6
  · simp [hlen] at hp
  · simp only [hlen, if_false, hg] at hp
    rcases h1 : pyIdx parts ((gi : Int) - 1) with _ | ern <;> rw [h1] at hp
    · simp at hp
    · rcases h2 : pyIdx parts ((gi : Int) - 2) with _ | crd <;> rw [h2] at hp
      · simp at hp
      · rcases h3 : pyIdx parts ((gi : Int) - 3) with _ | p1 <;> rw [h3] at hp
        · simp at hp
        · rcases h4 : pyIdx parts ((gi : Int) - 4) with _ | p2 <;> rw [h4] at hp
          · simp at hp
          · simp only [Option.some.injEq] at hp
            subst hp
            refine ⟨?_, ?_, by simp [h1]⟩
            · cases hgp : parts.get? (gi + 1) <;> simp [hgp]
            · cases hcp : parts.get? (gi + 2) <;> simp [hcp]

/-- Witness for C4 (amended): the eight-token row
`20002: 50 40 90 3 3 B+ 9` has its grade pivot at index 6; the grade point
is the token to the right of the pivot and the credit point, missing past
the end, defaults to `"0"`. -/
theorem C4_amended_witness :
    (syParseRowTokens ["20002:", "50", "40", "90", "3", "3", "B+", "9"] []).map
        (fun r => (r.gp, r.cp, r.ern)) = some ("9", "0", "3") := by
  rcases heq : syParseRowTokens ["20002:", "50", "40", "90", "3", "3", "B+", "9"] []
    with _ | r
  · exact absurd heq (by decide)
  · have h := C4_amended ["20002:", "50", "40", "90", "3", "3", "B+", "9"] []
      6 "B+" r (by decide) heq
    have hern : r.ern = "3" := by
      have := h.2.2
      have hv : pyIdx ["20002:", "50", "40", "90", "3", "3", "B+", "9"] 5 = some "3" := by
        decide
      rw [show ((6 : Nat) : Int) - 1 = 5 from rfl, hv] at this
      exact (Option.some.injEq _ _).mp this.symm
    simp [h.1, h.2.1, hern]

set_option maxRecDepth 100000 in
/-- Claim C3 fails on the code: in the NEP block below, the only parsed
subject grade is `AB` and the block has no explicit result phrase, so the
claim demands `result="FAIL"`; the NEP resolver counts only `F`, `FFF`,
`FAIL` as fail-class, so it infers `result="PASS"`. -/
theorem C3_counterexample :
    (parse_nep_block
        "PRN: 124 SEAT NO.: 457 NAME: VIJAY Mother - ASHA\nSemester : 1\nSUB-102 10 20 30 60 4 0 AB 0 0\n"
        []).map (fun r => (r.result, r.sem1_subjects.map (·.grd)))
      = some ("PASS", ["AB"]) := by
  decide

/-- Claim C3 (amended): with at least one parsed grade and no explicit
result phrase, the SY resolver infers `FAIL` exactly when some grade lies
in `F, FFF, FAIL, AB, Absent`; the NEP resolver (summary text without
`44/44` or an ATKT phrase, modelled by the empty summary) infers `FAIL`
exactly when some grade lies in `F, FFF, FAIL` — so `AB`/`Absent` grades
count as passing there. -/
theorem C3_amended :
    (∀ grades : List String,
      (grades.any
          (fun g => g = "F" || g = "FFF" || g = "FAIL" || g = "AB" || g = "Absent") = true →
        syInferResult grades = "FAIL") ∧
      (grades.any
          (fun g => g = "F" || g = "FFF" || g = "FAIL" || g = "AB" || g = "Absent") = false →
        syInferResult grades = "PASS")) ∧
    (∀ grades : List String,
      (grades.any (fun g => g = "F" || g = "FFF" || g = "FAIL") = true →
        nepResultOf "" grades = "FAIL") ∧
      (grades.any (fun g => g = "F" || g = "FFF" || g = "FAIL") = false →
        0 < grades.length → nepResultOf "" grades = "PASS")) := by
  have h44 : pyIn "44/44" "" = false := by decide
  have hatk : pyIn "A.T.K.T" "" = false := by decide
  constructor
  · intro grades
    constructor
    · intro h
      simp [syInferResult, h]
    · intro h
      simp [syInferResult, h]
  · intro grades
    constructor
    · intro h
      simp [nepResultOf, h44, hatk, h]
    · intro h hlen
      have hd : decide (0 < grades.length) = true := decide_eq_true hlen
      simp [nepResultOf, h44, h, hd]

/-- Witness for C3 (amended): the single grade `AB` makes the SY resolver
infer `FAIL` but the NEP resolver infer `PASS`. -/
theorem C3_amended_witness :
    syInferResult ["AB"] = "FAIL" ∧ nepResultOf "" ["AB"] = "PASS" :=
  ⟨(C3_amended.1 ["AB"]).1 (by decide),
   (C3_amended.2 ["AB"]).2 (by decide) (by decide)⟩

set_option maxRecDepth 100000 in
/-- Claim C5 fails on the code: in the NEP block below the overall result
is `FAIL` (grade `F`, no explicit phrase), yet `dashboard_sgpa` is the
first semester's explicit figure `5.00` rather than the sentinel `"-"` —
the NEP pattern emits the SGPA with no PASS gate. -/
theorem C5_counterexample :
    (parse_nep_block
        "PRN: 123 SEAT NO.: 456 NAME: AAKASH Mother - SIMA\nSemester : 1\nSUB-101 10 20 30 60 4 4 F 0 0\nFirst Semester SGPA : 5.00\n"
        []).map (fun r => (r.result, r.dashboard_sgpa))
      = some ("FAIL", "5.00") := by
  decide

/-- Claim C5 (amended): both patterns prefer the latest semester's
explicit SGPA figure (SY: Fourth over Third over Second over First; NEP:
Second over First), but only the SY pattern gates the value on a result
containing `PASS`; the NEP pattern emits the figure regardless of the
result, and the sentinel `"-"` appears when no SGPA line matched (or, in
SY, when the result is not a PASS). -/
theorem C5_amended :
    (∀ res blk : String, pyIn "PASS" (upperS res) = false →
      syDashboardSgpa res blk = "-") ∧
    (∀ res blk v, pyIn "PASS" (upperS res) = true →
      sySgpaLabelScan "Fourth" blk = some v → syDashboardSgpa res blk = v) ∧
    (∀ res blk v, pyIn "PASS" (upperS res) = true →
      sySgpaLabelScan "Fourth" blk = none → sySgpaLabelScan "Third" blk = some v →
      syDashboardSgpa res blk = v) ∧
    (∀ res blk v, pyIn "PASS" (upperS res) = true →
      sySgpaLabelScan "Fourth" blk = none → sySgpaLabelScan "Third" blk = none →
      sySgpaLabelScan "Second" blk = some v → syDashboardSgpa res blk = v) ∧
    (∀ res blk v, pyIn "PASS" (upperS res) = true →
      sySgpaLabelScan "Fourth" blk = none → sySgpaLabelScan "Third" blk = none →
      sySgpaLabelScan "Second" blk = none → sySgpaLabelScan "First" blk = some v →
      syDashboardSgpa res blk = v) ∧
    (∀ res blk, pyIn "PASS" (upperS res) = true →
      sySgpaLabelScan "Fourth" blk = none → sySgpaLabelScan "Third" blk = none →
      sySgpaLabelScan "Second" blk = none → sySgpaLabelScan "First" blk = none →
      syDashboardSgpa res blk = "-") ∧
    (∀ blk v, nepSgpa2Scan blk.data = some v → nepDashboard blk = v) ∧
    (∀ blk v, nepSgpa2Scan blk.data = none → nepSgpa1Scan blk.data = some v →
      nepDashboard blk = v) ∧
    (∀ blk, nepSgpa2Scan blk.data = none → nepSgpa1Scan blk.data = none →
      nepDashboard blk = "-") := by
  refine ⟨?_, ?_, ?_, ?_, ?_, ?_, ?_, ?_, ?_⟩
  · intro res blk h
    simp [syDashboardSgpa, h]
  · intro res blk v h h4
    simp [syDashboardSgpa, h, h4]
  · intro res blk v h h4 h3
    simp [syDashboardSgpa, h, h4, h3]
  · intro res blk v h h4 h3 h2
    simp [syDashboardSgpa, h, h4, h3, h2]
  · intro res blk v h h4 h3 h2 h1
    simp [syDashboardSgpa, h, h4, h3, h2, h1]
  · intro res blk h h4 h3 h2 h1
    simp [syDashboardSgpa, h, h4, h3, h2, h1]
  · intro blk v h2
    simp [nepDashboard, h2]
  · intro blk v h2 h1
    simp [nepDashboard, h2, h1]
  · intro blk h2 h1
    simp [nepDashboard, h2, h1]

/-- Witness for C5 (amended): a failing SY result suppresses the figure; a
passing one surfaces the fourth, third, second or first semester's figure
in priority order, and the sentinel when no level matches; the NEP
selection returns the first semester's figure with no gate to discharge. -/
theorem C5_amended_witness :
    syDashboardSgpa "FAIL" "Fourth Semester SGPA : 9.99" = "-" ∧
      syDashboardSgpa "PASS" "Fourth Semester SGPA : 9.10" = "9.10" ∧
      syDashboardSgpa "PASS" "Third Semester SGPA : 8.80" = "8.80" ∧
      syDashboardSgpa "PASS" "Second Semester SGPA : 7.70" = "7.70" ∧
      syDashboardSgpa "PASS" "First Semester SGPA : 6.60" = "6.60" ∧
      syDashboardSgpa "PASS" "no sgpa line" = "-" ∧
      nepDashboard "First Semester SGPA : 5.25" = "5.25" :=
  ⟨C5_amended.1 "FAIL" "Fourth Semester SGPA : 9.99" (by decide),
   C5_amended.2.1 "PASS" "Fourth Semester SGPA : 9.10" "9.10" (by decide) (by decide),
   C5_amended.2.2.1 "PASS" "Third Semester SGPA : 8.80" "8.80" (by decide) (by decide)
     (by decide),
   C5_amended.2.2.2.1 "PASS" "Second Semester SGPA : 7.70" "7.70" (by decide) (by decide)
     (by decide) (by decide),
   C5_amended.2.2.2.2.1 "PASS" "First Semester SGPA : 6.60" "6.60" (by decide) (by decide)
     (by decide) (by decide) (by decide),
   C5_amended.2.2.2.2.2.1 "PASS" "no sgpa line" (by decide) (by decide) (by decide)
     (by decide) (by decide),
   C5_amended.2.2.2.2.2.2.2.1 "First Semester SGPA : 5.25" "5.25" (by decide) (by decide)⟩

/-- Claim C1 fails on the code: the SY parser's `main` returns
`success = true` together with an empty `student_data` list on a document
from which zero student records were extracted (here a single empty page) —
its envelope never checks for emptiness. -/
theorem C1_counterexample :
    (syMain [""]).success = true ∧ (syMain [""]).student_data = [] := by
  decide

/-- Claim C1 (amended): the gazette and NEP parsers return `success=false`
whenever zero student records were extracted and never return
`success=true` with an empty `student_data` list; the SY parser does not
share this property (it returns `success=true` unconditionally). -/
theorem C1_amended :
    ∀ dg dn : List String,
      ((gazMain dg).success && (gazMain dg).student_data.isEmpty) = false ∧
      ((nepMain dn).success && (nepMain dn).student_data.isEmpty) = false := by
  intro dg dn
  constructor
  · cases hg : (analyze_gazette_pattern (joinNlS dg)).isEmpty
    · simp [gazMain, hg]
    · simp [gazMain, hg]
  · cases hn : (nepStudents dn).isEmpty
    · simp [nepMain, hn]
    · simp [nepMain, hn]

/-- Claim C6: in all three pattern parsers, every emitted student record
has a nonempty `seat_no` or a nonempty `prn` — a block whose identity
pattern does not match is discarded, never emitted as a partial record. -/
theorem C6_identity_invariant :
    ∀ d1 d2 d3 : List String,
      ((gazMain d1).student_data.all fun r => r.seat_no != "" || r.prn != "") = true ∧
      ((nepMain d2).student_data.all fun r => r.seat_no != "" || r.prn != "") = true ∧
      ((syMain d3).student_data.all fun r => r.seat_no != "" || r.prn != "") = true := by
  intro d1 d2 d3
  refine ⟨?_, ?_, ?_⟩
  · rw [List.all_eq_true]
    intro r hr
    have hs := gazMain_seat d1 r hr
    simp [bne_iff_ne, hs]
  · rw [List.all_eq_true]
    intro r hr
    have hs := nepMain_prn d2 r hr
    simp [bne_iff_ne, hs]
  · rw [List.all_eq_true]
    intro r hr
    have hs := (syMain_facts d3 r hr).1
    simp [bne_iff_ne, hs]

/-- Claim C7 fails on the code: the gazette metadata extractor initialises
`pun_code` to Python `None` and never assigns it, so an unrecoverable
`pun_code` is `None`, not the string `"Unknown"` the claim requires. -/
theorem C7_counterexample :
    (gazHeaderMeta ["x"]).pun_code = none ∧
      (gazHeaderMeta ["x"]).pun_code ≠ some "Unknown" := by
  decide

/-- Claim C7 (amended): the metadata extractors are total, and every
`course_name`/`college_name` that none of the pattern layers recovers
defaults to `"Unknown"` in all three extractors; `pun_code` defaults to
`"Unknown"` in the SY and NEP extractors, but the gazette extractor always
leaves it as Python `None`. -/
theorem C7_amended :
    (∀ doc, (gazHeaderMeta doc).pun_code = none) ∧
    (∀ p : String, gazCourseScan p.data = none → gazCourseFbScan p.data = none →
      (gazHeaderMeta [p]).course_name = "Unknown") ∧
    (∀ p : String, gazCollegeScan p.data = none → gazCollegeFbScan p.data = none →
      (gazHeaderMeta [p]).college_name = "Unknown") ∧
    (∀ doc, syPunScan (syHeaderText doc).data = none →
      (syExtractHeaderMetadata doc).pun_code = some "Unknown") ∧
    (∀ doc, syCourseScan (syHeaderText doc).data = none →
      (syExtractHeaderMetadata doc).course_name = "Unknown") ∧
    (∀ doc, syCollegeScan (syHeaderText doc).data = none →
      syCollegeFbScan (syHeaderText doc).data = none →
      (syExtractHeaderMetadata doc).college_name = "Unknown") ∧
    (∀ p : String, syPunScan p.data = none →
      (nepHeaderMeta [p]).pun_code = some "Unknown") ∧
    (∀ p : String, nepCourseScan p.data = none → nepCourseFbScan p.data = none →
      (nepHeaderMeta [p]).course_name = "Unknown") ∧
    (∀ p : String, nepCollegeScan p.data = none →
      (nepHeaderMeta [p]).college_name = "Unknown") := by
  refine ⟨?_, ?_, ?_, ?_, ?_, ?_, ?_, ?_, ?_⟩
  · intro doc
    cases doc with
    | nil => rfl
    | cons p t =>
      by_cases hp : p = ""
      · simp [gazHeaderMeta, hp]
      · simp [gazHeaderMeta, hp]
  · intro p h1 h2
    by_cases hp : p = ""
    · simp [gazHeaderMeta, hp]
    · simp [gazHeaderMeta, hp, h1, h2]
  · intro p h1 h2
    by_cases hp : p = ""
    · simp [gazHeaderMeta, hp]
    · simp [gazHeaderMeta, hp, h1, h2]
  · intro doc h
    by_cases hh : syHeaderText doc = ""
    · simp [syExtractHeaderMetadata, hh]
    · simp [syExtractHeaderMetadata, hh, h]
  · intro doc h
    by_cases hh : syHeaderText doc = ""
    · simp [syExtractHeaderMetadata, hh]
    · simp [syExtractHeaderMetadata, hh, h]
  · intro doc h1 h2
    by_cases hh : syHeaderText doc = ""
    · simp [syExtractHeaderMetadata, hh]
    · simp [syExtractHeaderMetadata, hh, h1, h2]
  · intro p h
    by_cases hp : p = ""
    · simp [nepHeaderMeta, hp]
    · simp [nepHeaderMeta, hp, h]
  · intro p h1 h2
    by_cases hp : p = ""
    · simp [nepHeaderMeta, hp]
    · simp [nepHeaderMeta, hp, h1, h2]
  · intro p h
    by_cases hp : p = ""
    · simp [nepHeaderMeta, hp]
    · simp [nepHeaderMeta, hp, h]

/-- Witness for C7 (amended): on a header page `zz` no pattern matches, so
every defaultable field is `"Unknown"` while the gazette `pun_code` is
`none`. -/
theorem C7_amended_witness :
    (gazHeaderMeta ["zz"]).pun_code = none ∧
      (gazHeaderMeta ["zz"]).course_name = "Unknown" ∧
      (gazHeaderMeta ["zz"]).college_name = "Unknown" ∧
      (syExtractHeaderMetadata ["zz"]).pun_code = some "Unknown" ∧
      (syExtractHeaderMetadata ["zz"]).course_name = "Unknown" ∧
      (syExtractHeaderMetadata ["zz"]).college_name = "Unknown" ∧
      (nepHeaderMeta ["zz"]).pun_code = some "Unknown" ∧
      (nepHeaderMeta ["zz"]).course_name = "Unknown" ∧
      (nepHeaderMeta ["zz"]).college_name = "Unknown" :=
  ⟨C7_amended.1 ["zz"],
   C7_amended.2.1 "zz" (by decide) (by decide),
   C7_amended.2.2.1 "zz" (by decide) (by decide),
   C7_amended.2.2.2.1 ["zz"] (by decide),
   C7_amended.2.2.2.2.1 ["zz"] (by decide),
   C7_amended.2.2.2.2.2.1 ["zz"] (by decide) (by decide),
   C7_amended.2.2.2.2.2.2.1 "zz" (by decide),
   C7_amended.2.2.2.2.2.2.2.1 "zz" (by decide) (by decide),
   C7_amended.2.2.2.2.2.2.2.2 "zz" (by decide)⟩

/-- Claim C10: every student record emitted by the SY parser has
`total_marks` equal to `dashboard_sgpa` — both fields are assigned the same
selected SGPA string (or the sentinel `"-"`), so `total_marks` never holds
a marks total in the SY pattern. -/
theorem C10_total_marks_is_sgpa :
    ∀ doc, ((syMain doc).student_data.all
      fun r => r.total_marks == r.dashboard_sgpa) = true := by
  intro doc
  rw [List.all_eq_true]
  intro r hr
  have hs := (syMain_facts doc r hr).2
  simp [hs]

end CRA
